import Mathlib

/-!
# Verification of the NOARZ storage layer

Shallow embedding of the NOARZ repository's storage code:

* `DataManager` (src/unnamed/part_000) — the selector that picks between the
  GitHub backend and the localStorage backend and forwards the four document
  accessor pairs;
* `GitHubAPI` and `GITHUB_CONFIG` (src/NOARZ/github-config.js) — the remote
  backend: an authenticated `fetch` wrapper (`makeRequest`), generic file
  operations (`getFile` / `saveFile` / `deleteFile`) and the four document
  accessors layered over them.

The browser environment is modelled explicitly:

* JSON values are the inductive `JVal`.  JavaScript numbers are floats; the
  only numbers this program ever stores in a JSON document are the HTTP status
  naturals it fabricates for HEAD/204 responses, so `JVal` carries `Nat`
  numbers and the round-trip results are stated for number-free values.
  `jstringify` is `JSON.stringify` (compact form: the `null, 2` indent
  argument used by the remote accessors only inserts whitespace, which does
  not affect any claim), and `jparse` is `JSON.parse` (a fuel-indexed strict
  recursive-descent reading of exactly the grammar `jstringify` emits;
  control characters inside strings are carried verbatim rather than
  `\u`-escaped, which only changes the representation, not the round-trip or
  failure facts used below).
* `btoaE` / `atobE` are the browser's `btoa` / `atob`: base64 over the
  string's code units, with `btoa` failing on any code unit above 255
  exactly as the `InvalidCharacterError` of the browser does.
* `localStorage` is an association list of string keys to string values;
  `getItem` returns the most recent binding.
* `fetch` is a `respond : σ → HRequest → σ × FetchResp` oracle over an
  abstract server state `σ`; every request issued is recorded in a log so
  that "never issues a delete request" style claims are about the log.
  `gitHubRespond` is a concrete well-behaved instance of the oracle
  implementing the GitHub contents API (used for the round-trip claims).

Effectful methods live in `StE ω α := ω → Except Err α × ω × List HRequest`:
state passing plus the request log plus JavaScript exceptions.
-/

set_option linter.unusedVariables false

namespace NOARZ

/-- JSON values (no floats: see the module comment).  Objects are ordered
association lists, as JavaScript objects preserve insertion order; the
"deep equality" of the spec is equality of these trees. -/
inductive JVal where
  | null : JVal
  | bool : Bool → JVal
  | num : Nat → JVal
  | str : String → JVal
  | arr : List JVal → JVal
  | obj : List (String × JVal) → JVal

mutual

/-- Boolean structural equality on JSON values (the derive handler does not
support this nested inductive, so equality is spelled out). -/
def jeq : JVal → JVal → Bool
  | .null, .null => true
  | .bool a, .bool b => decide (a = b)
  | .num a, .num b => decide (a = b)
  | .str a, .str b => decide (a = b)
  | .arr a, .arr b => jeqL a b
  | .obj a, .obj b => jeqM a b
  | _, _ => false

/-- Boolean equality on value lists. -/
def jeqL : List JVal → List JVal → Bool
  | [], [] => true
  | a :: as, b :: bs => jeq a b && jeqL as bs
  | _, _ => false

/-- Boolean equality on member lists. -/
def jeqM : List (String × JVal) → List (String × JVal) → Bool
  | [], [] => true
  | (k, v) :: as, (l, w) :: bs => decide (k = l) && jeq v w && jeqM as bs
  | _, _ => false

end

mutual

/-- Soundness of `jeq` (a definition rather than a theorem so that the
`DecidableEq` instance the later definitions need can be set up before any
theorem appears). -/
def jeq_eq : ∀ a b : JVal, jeq a b = true → a = b
  | .null, .null, _ => rfl
  | .bool _, .bool _, h => by
    simp only [jeq, decide_eq_true_eq] at h; rw [h]
  | .num _, .num _, h => by
    simp only [jeq, decide_eq_true_eq] at h; rw [h]
  | .str _, .str _, h => by
    simp only [jeq, decide_eq_true_eq] at h; rw [h]
  | .arr a, .arr b, h => by
    rw [jeqL_eq a b h]
  | .obj a, .obj b, h => by
    rw [jeqM_eq a b h]

/-- Soundness of `jeqL`. -/
def jeqL_eq : ∀ a b : List JVal, jeqL a b = true → a = b
  | [], [], _ => rfl
  | a :: as, b :: bs, h => by
    simp only [jeqL, Bool.and_eq_true] at h
    rw [jeq_eq a b h.1, jeqL_eq as bs h.2]

/-- Soundness of `jeqM`. -/
def jeqM_eq : ∀ a b : List (String × JVal), jeqM a b = true → a = b
  | [], [], _ => rfl
  | (k, v) :: as, (l, w) :: bs, h => by
    simp only [jeqM, Bool.and_eq_true, decide_eq_true_eq] at h
    rw [h.1.1, jeq_eq v w h.1.2, jeqM_eq as bs h.2]

end

mutual

/-- Reflexivity of `jeq`. -/
def jeq_refl : ∀ a : JVal, jeq a a = true
  | .null => rfl
  | .bool _ => by simp [jeq]
  | .num _ => by simp [jeq]
  | .str _ => by simp [jeq]
  | .arr a => jeqL_refl a
  | .obj a => jeqM_refl a

/-- Reflexivity of `jeqL`. -/
def jeqL_refl : ∀ a : List JVal, jeqL a a = true
  | [] => rfl
  | a :: as => by
    simp only [jeqL, Bool.and_eq_true]
    exact ⟨jeq_refl a, jeqL_refl as⟩

/-- Reflexivity of `jeqM`. -/
def jeqM_refl : ∀ a : List (String × JVal), jeqM a a = true
  | [] => rfl
  | (k, v) :: as => by
    simp [jeqM, jeq_refl v, jeqM_refl as]

end

instance : DecidableEq JVal := fun a b =>
  if h : jeq a b = true then .isTrue (jeq_eq a b h)
  else .isFalse (fun he => h (he ▸ jeq_refl a))

/-- Field access `v[k]` on a JSON value: `none` models JavaScript
`undefined` (missing key or non-object receiver). -/
def jGet : JVal → String → Option JVal
  | .obj ms, k => (ms.find? (fun m => m.1 = k)).map (fun m => m.2)
  | _, _ => none

/-- Field access returning a string, or `none` when absent or not a string. -/
def jStr (v : JVal) (k : String) : Option String :=
  match jGet v k with
  | some (.str s) => some s
  | _ => none

/-- Does the object value carry the field at all (JavaScript `k in v`)? -/
def jHas (v : JVal) (k : String) : Bool :=
  (jGet v k).isSome

/-- JavaScript truthiness of a JSON value. -/
def truthy : JVal → Bool
  | .null => false
  | .bool b => b
  | .num n => decide (n ≠ 0)
  | .str s => decide (s ≠ "")
  | .arr _ => true
  | .obj _ => true

/-- JavaScript truthiness of a string. -/
def strT (s : String) : Bool :=
  decide (s ≠ "")

/-- JavaScript `String(·)` coercion of a JSON value (used by
`localStorage.setItem`, which stringifies its argument).  The array case is
simplified (JS comma-joins elements, with its own rules for null holes);
none of the document accessors stores an array-valued settings field, so no
result depends on that case. -/
def jsToStr : JVal → String
  | .null => "null"
  | .bool true => "true"
  | .bool false => "false"
  | .num n => Nat.repr n
  | .str s => s
  | .arr _ => ""
  | .obj _ => "[object Object]"

/-- JSON string-body escaping: `"` and `\` get a backslash, everything else
is carried verbatim (see the module comment on control characters). -/
def escC (c : Char) : List Char :=
  if c = '"' then ['\\', '"']
  else if c = '\\' then ['\\', '\\']
  else [c]

/-- Escape a whole string body. -/
def escStr (s : List Char) : List Char :=
  s.flatMap escC

mutual

/-- `JSON.stringify` on the character-list level. -/
def sify : JVal → List Char
  | .null => 'n' :: 'u' :: 'l' :: ['l']
  | .bool true => 't' :: 'r' :: 'u' :: ['e']
  | .bool false => 'f' :: 'a' :: 'l' :: 's' :: ['e']
  | .num n => (Nat.repr n).data
  | .str s => '"' :: (escStr s.data ++ ['"'])
  | .arr vs => '[' :: (sifyArr vs ++ [']'])
  | .obj ms => '{' :: (sifyObj ms ++ ['}'])

/-- Array elements, comma-separated. -/
def sifyArr : List JVal → List Char
  | [] => []
  | [v] => sify v
  | v :: vs => sify v ++ ',' :: sifyArr vs

/-- Object members, comma-separated. -/
def sifyObj : List (String × JVal) → List Char
  | [] => []
  | [m] => sifyMem m
  | m :: ms => sifyMem m ++ ',' :: sifyObj ms

/-- One `"key":value` member. -/
def sifyMem : String × JVal → List Char
  | (k, v) => '"' :: (escStr k.data ++ '"' :: ':' :: sify v)

end

/-- `JSON.stringify` as a string-level function. -/
def jstringify (v : JVal) : String :=
  String.mk (sify v)

/-- Parse a JSON string body (input starts after the opening quote), undoing
`escStr`; returns the body and the input after the closing quote. -/
def pStr : List Char → Option (List Char × List Char)
  | [] => none
  | c :: rest =>
    if c = '"' then some ([], rest)
    else if c = '\\' then
      match rest with
      | [] => none
      | e :: rest2 =>
        if e = '"' ∨ e = '\\' then
          match pStr rest2 with
          | some (s, r) => some (e :: s, r)
          | none => none
        else none
    else
      match pStr rest with
      | some (s, r) => some (c :: s, r)
      | none => none

/-- Parse a run of leading decimal digits (the number production). -/
def pDigits : List Char → Nat → Nat × List Char
  | [], acc => (acc, [])
  | c :: rest, acc =>
    if c.isDigit then pDigits rest (acc * 10 + (c.toNat - 48))
    else (acc, c :: rest)

mutual

/-- Fuel-indexed JSON value parsing; returns the value and the rest of the
input.  The fuel bounds the nesting work and is always supplied large enough
by `jparse` (see `jfuel_le_sify`). -/
def pVal : Nat → List Char → Option (JVal × List Char)
  | 0, _ => none
  | fuel + 1, cs =>
    match cs with
    | 'n' :: 'u' :: 'l' :: 'l' :: rest => some (.null, rest)
    | 't' :: 'r' :: 'u' :: 'e' :: rest => some (.bool true, rest)
    | 'f' :: 'a' :: 'l' :: 's' :: 'e' :: rest => some (.bool false, rest)
    | '"' :: rest =>
      match pStr rest with
      | some (s, r) => some (.str (String.mk s), r)
      | none => none
    | '[' :: rest =>
      (match pItems fuel rest with
       | some (vs, r2) => some (.arr vs, r2)
       | none => none)
    | '{' :: rest =>
      (match pMems fuel rest with
       | some (ms, r2) => some (.obj ms, r2)
       | none => none)
    | c :: rest =>
      if c.isDigit then
        match pDigits (c :: rest) 0 with
        | (n, r) => some (.num n, r)
      else none
    | [] => none

/-- Array item list, up to and including the closing bracket: try a value
first; when no value starts here, accept only an immediate `]` (the empty
array). -/
def pItems : Nat → List Char → Option (List JVal × List Char)
  | 0, _ => none
  | fuel + 1, cs =>
    match pVal fuel cs with
    | some (v, r) =>
      match r with
      | ',' :: r2 =>
        (match pItems fuel r2 with
         | some (vs, r3) => some (v :: vs, r3)
         | none => none)
      | ']' :: r2 => some ([v], r2)
      | _ => none
    | none =>
      match cs with
      | ']' :: r2 => some ([], r2)
      | _ => none

/-- Object member list, up to and including the closing brace: a `"` starts
a member, an immediate `}` closes the (empty) object. -/
def pMems : Nat → List Char → Option (List (String × JVal) × List Char)
  | 0, _ => none
  | fuel + 1, cs =>
    match cs with
    | '}' :: r2 => some ([], r2)
    | '"' :: rest =>
      (match pStr rest with
       | some (k, r1) =>
         (match r1 with
          | ':' :: r2 =>
            (match pVal fuel r2 with
             | some (v, r3) =>
               (match r3 with
                | ',' :: r4 =>
                  (match pMems fuel r4 with
                   | some (ms, r5) => some ((String.mk k, v) :: ms, r5)
                   | none => none)
                | '}' :: r4 => some ([(String.mk k, v)], r4)
                | _ => none)
             | none => none)
          | _ => none)
       | none => none)
    | _ => none

end

/-- A JavaScript `Error`, identified by its message. -/
structure Err where
  msg : String
deriving DecidableEq, Repr

deriving instance DecidableEq for Except

/-- The error `JSON.parse` throws on malformed input (the model uses a single
message for all syntax errors). -/
def jsonSyntaxErr : Err :=
  ⟨"SyntaxError: Unexpected token in JSON"⟩

/-- `JSON.parse`: parse the whole string or throw.  The fuel is two units
per input character plus two, which `jfuel_le` shows is always enough. -/
def jparse (s : String) : Except Err JVal :=
  match pVal (2 * s.data.length + 2) s.data with
  | some (v, []) => .ok v
  | some _ => .error jsonSyntaxErr
  | none => .error jsonSyntaxErr

/-- The base64 alphabet character for a sextet. -/
def b64c (n : Nat) : Char :=
  "ABCDEFGHIJKLMNOPQRSTUVWXYZabcdefghijklmnopqrstuvwxyz0123456789+/".data.getD n '?'

/-- The sextet for a base64 alphabet character, `none` outside the alphabet
(in particular for the padding character). -/
def b64i (c : Char) : Option Nat :=
  "ABCDEFGHIJKLMNOPQRSTUVWXYZabcdefghijklmnopqrstuvwxyz0123456789+/".data.indexOf? c

/-- Base64-encode a byte list (values < 256), three bytes to four characters,
padded with `=`. -/
def encB : List Nat → List Char
  | [] => []
  | [a] => [b64c (a / 4), b64c (a % 4 * 16), '=', '=']
  | [a, b] => [b64c (a / 4), b64c (a % 4 * 16 + b / 16), b64c (b % 16 * 4), '=']
  | a :: b :: c :: rest =>
    b64c (a / 4) :: b64c (a % 4 * 16 + b / 16) :: b64c (b % 16 * 4 + c / 64)
      :: b64c (c % 64) :: encB rest

/-- Base64-decode a character list; `none` on anything `encB` cannot have
produced (bad length, characters outside the alphabet, interior padding). -/
def decB : List Char → Option (List Nat)
  | [] => some []
  | c1 :: c2 :: c3 :: c4 :: rest =>
    (match b64i c1, b64i c2 with
     | some n1, some n2 =>
       if c3 = '=' then
         if c4 = '=' ∧ rest = [] then some [n1 * 4 + n2 / 16] else none
       else
         (match b64i c3 with
          | some n3 =>
            if c4 = '=' then
              if rest = [] then some [n1 * 4 + n2 / 16, n2 % 16 * 16 + n3 / 4]
              else none
            else
              (match b64i c4 with
               | some n4 =>
                 (match decB rest with
                  | some bs =>
                    some ((n1 * 4 + n2 / 16) :: (n2 % 16 * 16 + n3 / 4)
                      :: (n3 % 4 * 64 + n4) :: bs)
                  | none => none)
               | none => none)
          | none => none)
     | _, _ => none)
  | _ => none

/-- The error `btoa` throws on a code unit above 255. -/
def invalidCharErr : Err :=
  ⟨"InvalidCharacterError: The string to be encoded contains characters outside of the Latin1 range."⟩

/-- The error `atob` throws on a string that is not valid base64. -/
def atobErr : Err :=
  ⟨"InvalidCharacterError: The string to be decoded is not correctly encoded."⟩

/-- Browser `btoa`: base64 of the string's code units; throws when any code
unit is above 255. -/
def btoaE (s : String) : Except Err String :=
  if s.data.all (fun c => c.toNat < 256) then
    .ok (String.mk (encB (s.data.map Char.toNat)))
  else .error invalidCharErr

/-- Browser `atob`: decode base64 back to a code-unit string. -/
def atobE (s : String) : Except Err String :=
  match decB s.data with
  | some bs => .ok (String.mk (bs.map Char.ofNat))
  | none => .error atobErr

/-- Substring occurrence at the head (list-level `isPrefixOf`). -/
def headMatch : List Char → List Char → Bool
  | [], _ => true
  | _ :: _, [] => false
  | p :: ps, c :: cs => decide (p = c) && headMatch ps cs

/-- Substring occurrence anywhere (list level). -/
def subMatch (pat : List Char) : List Char → Bool
  | [] => headMatch pat []
  | c :: cs => headMatch pat (c :: cs) || subMatch pat cs

/-- JavaScript `String.prototype.includes`. -/
def strIncludes (s pat : String) : Bool :=
  subMatch pat.data s.data

/-- HTTP methods used by `makeRequest`. -/
inductive HMethod where
  | GET | POST | PUT | PATCH | DELETE | HEAD
deriving DecidableEq, Repr

/-- A request as issued by `makeRequest`: the full URL, the method, and the
structured payload (`data`).  The wire body is `jstringify` of `data`, which
is injective on the payloads this code builds, so the payload is logged
structurally.  The fixed auth/accept headers carry no claim-relevant
information and are elided. -/
structure HRequest where
  url : String
  method : HMethod
  data : Option JVal
deriving DecidableEq

/-- A `fetch` response: status, status text, and the JSON reading of the
body (`none` when the body is not JSON, in which case `response.json()`
throws). -/
structure FetchResp where
  status : Nat
  statusText : String
  body : Option JVal
deriving DecidableEq

/-- `response.ok`: status in the 2xx range (guaranteed by `fetch`). -/
def FetchResp.okb (r : FetchResp) : Bool :=
  decide (200 ≤ r.status ∧ r.status < 300)

/-- The effect type of the async methods: server state and localStorage-style
state `ω` in, a JavaScript-exception-or-value result, the final state, and
the log of every network request issued along the way. -/
def StE (ω α : Type) : Type :=
  ω → Except Err α × ω × List HRequest

/-- Return. -/
def pureE (a : α) : StE ω α :=
  fun s => (.ok a, s, [])

/-- Sequencing: propagate exceptions, thread state, append logs. -/
def seqE (m : StE ω α) (f : α → StE ω β) : StE ω β :=
  fun s =>
    match m s with
    | (.ok a, s1, l1) =>
      (match f a s1 with
       | (r, s2, l2) => (r, s2, l1 ++ l2))
    | (.error e, s1, l1) => (.error e, s1, l1)

/-- Throw a JavaScript exception. -/
def throwE (e : Err) : StE ω α :=
  fun s => (.error e, s, [])

/-- `try … catch` with the requests of the failed attempt kept in the log. -/
def tryE (m : StE ω α) (h : Err → StE ω α) : StE ω α :=
  fun s =>
    match m s with
    | (.ok a, s1, l1) => (.ok a, s1, l1)
    | (.error e, s1, l1) =>
      (match h e s1 with
       | (r, s2, l2) => (r, s2, l1 ++ l2))

/-- The `fetch` environment: how the network answers one request, threading
an abstract server state. -/
def Responder (σ : Type) : Type :=
  σ → HRequest → σ × FetchResp

/-- A `GitHubAPI` instance: the constructor stores the token; `username` and
`repoName` are `null` until `GitHubAPI.initialize` fills them in. -/
structure GitHubAPI where
  token : String
  username : Option String
  repoName : Option String
deriving DecidableEq

/-- JavaScript string coercion of a possibly-`null` string (template
literals render `null` as `"null"`). -/
def optS : Option String → String
  | none => "null"
  | some s => s

/-- `this.apiBaseUrl`. -/
def apiBaseUrl : String :=
  "https://api.github.com"

/-- The error `response.json()` throws when the response body is not JSON. -/
def respJsonErr : Err :=
  ⟨"SyntaxError: Unexpected end of JSON input"⟩

/-- The error of reading `content`/`sha`/`path` off a malformed success
response in `getFile` (field missing or not a string). -/
def fileShapeErr : Err :=
  ⟨"TypeError: malformed file response"⟩

/-- The message of the error `makeRequest` throws on a non-ok response. -/
def httpErrMsg (resp : FetchResp) : String :=
  "GitHub API Error: " ++ Nat.repr resp.status ++ " " ++ resp.statusText
    ++ " - " ++ jstringify (resp.body.getD (.obj []))

/-- `GitHubAPI.makeRequest`: build the request (attaching `data` only for
POST/PUT/PATCH), throw a `GitHub API Error` on a non-ok response, return a
bare status object for HEAD/204, otherwise the JSON body. -/
def makeRequest (api : GitHubAPI) (respond : Responder σ) (endpoint : String)
    (method : HMethod) (data : Option JVal) : StE σ JVal :=
  fun s =>
    let req : HRequest :=
      { url := apiBaseUrl ++ endpoint
        method := method
        data :=
          if data.isSome ∧ (method = .POST ∨ method = .PUT ∨ method = .PATCH)
          then data else none }
    let sr := respond s req
    let resp := sr.2
    if resp.okb then
      if method = .HEAD ∨ resp.status = 204 then
        (.ok (.obj [("status", .num resp.status), ("ok", .bool true)]), sr.1, [req])
      else
        match resp.body with
        | some j => (.ok j, sr.1, [req])
        | none => (.error respJsonErr, sr.1, [req])
    else
      (.error ⟨httpErrMsg resp⟩, sr.1, [req])

/-- The `/repos/{username}/{repoName}/contents/{path}` endpoint string. -/
def contentsEndpoint (api : GitHubAPI) (path : String) : String :=
  "/repos/" ++ optS api.username ++ "/" ++ optS api.repoName ++ "/contents/" ++ path

/-- The repository endpoint used by the connectivity probe. -/
def repoEndpoint (username repoName : String) : String :=
  "/repos/" ++ username ++ "/" ++ repoName

/-- The result of a successful `getFile`. -/
structure GFile where
  content : String
  sha : String
  path : String
deriving DecidableEq

/-- `GitHubAPI.getFile`: fetch the file, base64-decode `response.content`;
on any error whose message contains `'404'`, return `null` (file absent),
otherwise re-throw. -/
def GitHubAPI.getFile (api : GitHubAPI) (respond : Responder σ)
    (path : String) : StE σ (Option GFile) :=
  tryE
    (seqE (makeRequest api respond (contentsEndpoint api path) .GET none)
      (fun response =>
        match jStr response "content", jStr response "sha", jStr response "path" with
        | some c64, some sha, some p =>
          (match atobE c64 with
           | .ok content => pureE (some ⟨content, sha, p⟩)
           | .error e => throwE e)
        | _, _, _ => throwE fileShapeErr))
    (fun e => if strIncludes e.msg "404" then pureE none else throwE e)

/-- `GitHubAPI.saveFile`: `getFile` first to learn whether the path exists
and its sha; then PUT the base64 content, attaching `sha` to the payload
exactly when the fetched sha is truthy — the source's `if (sha)` — i.e.
when the file existed and its sha is a nonempty string. -/
def GitHubAPI.saveFile (api : GitHubAPI) (respond : Responder σ)
    (path content message : String) : StE σ JVal :=
  seqE ( GitHubAPI.getFile api respond path)
    (fun existingFile =>
      let sha := existingFile.map (fun f => f.sha)
      match btoaE content with
      | .error e => throwE e
      | .ok c64 =>
        let base := [("message", JVal.str message), ("content", JVal.str c64),
          ("branch", JVal.str "main")]
        let data :=
          match sha with
          | some s => if strT s then base ++ [("sha", JVal.str s)] else base
          | none => base
        makeRequest api respond (contentsEndpoint api path) .PUT (some (.obj data)))

/-- `GitHubAPI.deleteFile`: `getFile` first; throw `File not found` when the
path is absent, otherwise DELETE with the discovered sha.  (`makeRequest`
attaches payloads only for POST/PUT/PATCH, so the logged DELETE request
carries no payload, exactly as the source's `fetch` call does.) -/
def GitHubAPI.deleteFile (api : GitHubAPI) (respond : Responder σ)
    (path message : String) : StE σ JVal :=
  seqE ( GitHubAPI.getFile api respond path)
    (fun existingFile =>
      match existingFile with
      | none => throwE ⟨"File not found: " ++ path⟩
      | some f =>
        makeRequest api respond (contentsEndpoint api path) .DELETE
          (some (.obj [("message", JVal.str message), ("sha", JVal.str f.sha),
            ("branch", JVal.str "main")])))

/-- `GitHubAPI.initialize`: store the credentials on the instance, probe the
repository endpoint, and catch every failure into `false` — this method
never throws.  Returns the updated instance alongside the success flag. -/
def GitHubAPI.initialize (api : GitHubAPI) (respond : Responder σ)
    (username repoName : String) : StE σ (Bool × GitHubAPI) :=
  let api1 : GitHubAPI := { api with username := some username, repoName := some repoName }
  fun s =>
    match makeRequest api1 respond (repoEndpoint username repoName) .GET none s with
    | (.ok _, s1, l1) => (.ok (true, api1), s1, l1)
    | (.error _, s1, l1) => (.ok (false, api1), s1, l1)

/-- The shared shape of the four remote document readers
(`getNewsItems` / `getSiteSettings` / `getSocialLinks` / `getAdminSettings`):
`getFile` on the kind's fixed path, JSON-parse the content when present, and
on absence or any error return the kind's default. -/
def GitHubAPI.getDoc (api : GitHubAPI) (respond : Responder σ)
    (path : String) (dflt : JVal) : StE σ JVal :=
  tryE
    (seqE ( GitHubAPI.getFile api respond path)
      (fun file =>
        match file with
        | some f =>
          (match jparse f.content with
           | .ok v => pureE v
           | .error e => throwE e)
        | none => pureE dflt))
    (fun _ => pureE dflt)

/-- The shared shape of the four remote document writers: `saveFile` of the
JSON text under the kind's fixed path and commit message; `true` on success,
`false` on any error. -/
def GitHubAPI.saveDoc (api : GitHubAPI) (respond : Responder σ)
    (path : String) (v : JVal) (message : String) : StE σ Bool :=
  tryE
    (seqE ( GitHubAPI.saveFile api respond path (jstringify v) message)
      (fun _ => pureE true))
    (fun _ => pureE false)

/-- Default social links (same literal on both backends). -/
def socialDefault : JVal :=
  .obj [("youtube", .str "https://www.youtube.com"),
    ("discord", .str "https://discord.com")]

/-- Default admin settings (same literal on both backends). -/
def adminDefault : JVal :=
  .obj [("adminCode", .str "0988131688")]

/-- `GitHubAPI.getNewsItems` (default `[]`). -/
def GitHubAPI.getNewsItems (api : GitHubAPI) (respond : Responder σ) : StE σ JVal :=
  GitHubAPI.getDoc api respond "news.json" (.arr [])

/-- `GitHubAPI.saveNewsItems`. -/
def GitHubAPI.saveNewsItems (api : GitHubAPI) (respond : Responder σ)
    (newsItems : JVal) : StE σ Bool :=
  GitHubAPI.saveDoc api respond "news.json" newsItems "Update news items"

/-- `GitHubAPI.getSiteSettings` (default `{}`). -/
def GitHubAPI.getSiteSettings (api : GitHubAPI) (respond : Responder σ) : StE σ JVal :=
  GitHubAPI.getDoc api respond "settings.json" (.obj [])

/-- `GitHubAPI.saveSiteSettings`. -/
def GitHubAPI.saveSiteSettings (api : GitHubAPI) (respond : Responder σ)
    (settings : JVal) : StE σ Bool :=
  GitHubAPI.saveDoc api respond "settings.json" settings "Update site settings"

/-- `GitHubAPI.getSocialLinks`. -/
def GitHubAPI.getSocialLinks (api : GitHubAPI) (respond : Responder σ) : StE σ JVal :=
  GitHubAPI.getDoc api respond "social.json" socialDefault

/-- `GitHubAPI.saveSocialLinks`. -/
def GitHubAPI.saveSocialLinks (api : GitHubAPI) (respond : Responder σ)
    (links : JVal) : StE σ Bool :=
  GitHubAPI.saveDoc api respond "social.json" links "Update social media links"

/-- `GitHubAPI.getAdminSettings`. -/
def GitHubAPI.getAdminSettings (api : GitHubAPI) (respond : Responder σ) : StE σ JVal :=
  GitHubAPI.getDoc api respond "admin.json" adminDefault

/-- `GitHubAPI.saveAdminSettings`. -/
def GitHubAPI.saveAdminSettings (api : GitHubAPI) (respond : Responder σ)
    (settings : JVal) : StE σ Bool :=
  GitHubAPI.saveDoc api respond "admin.json" settings "Update admin settings"

/-- A file as held by the modelled GitHub contents API: the stored base64
text and the index of its content-hash token.  Real content-hash tokens are
nonempty hex digests; the model names the token minted at server counter
`i` as `"sha" ++ i`, so a stored token is never the empty string. -/
structure SrvFile where
  content64 : String
  shaIdx : Nat
deriving DecidableEq

/-- The content-hash token string of a stored file (never empty). -/
def SrvFile.sha (f : SrvFile) : String :=
  "sha" ++ Nat.repr f.shaIdx

/-- The modelled GitHub server state: files keyed by request URL, plus a
counter for minting fresh shas. -/
structure SrvState where
  files : List (String × SrvFile)
  ctr : Nat
deriving DecidableEq

/-- Look a file up by URL. -/
def srvLookup (sv : SrvState) (url : String) : Option SrvFile :=
  (sv.files.find? (fun f => f.1 = url)).map (fun f => f.2)

/-- Store (create or replace) a file at a URL. -/
def srvStore (sv : SrvState) (url : String) (f : SrvFile) : SrvState :=
  { files := (url, f) :: sv.files.filter (fun g => ¬ g.1 = url), ctr := sv.ctr + 1 }

/-- A 404 response as the contents API sends it. -/
def resp404 : FetchResp :=
  { status := 404, statusText := "Not Found", body := some (.obj [("message", .str "Not Found")]) }

/-- A 409 conflict response (stale or missing sha on an existing file). -/
def resp409 : FetchResp :=
  { status := 409, statusText := "Conflict", body := some (.obj [("message", .str "Conflict")]) }

/-- A 422 response (malformed write payload, or a sha for a new file). -/
def resp422 : FetchResp :=
  { status := 422, statusText := "Unprocessable Entity",
    body := some (.obj [("message", .str "Invalid request")]) }

/-- The success body of a contents GET. -/
def fileBody (url : String) (f : SrvFile) : JVal :=
  .obj [("content", .str f.content64), ("sha", .str f.sha), ("path", .str url)]

/-- Modelled from the environment's documented behaviour (not repository
code): a well-behaved GitHub contents API.  GET returns the stored base64
and sha or 404; PUT requires the current sha for an existing file and no sha
for a new one, stores the sent base64 and mints a fresh sha; DELETE requires
existence and the current sha.  Unknown methods get a 404. -/
def gitHubRespond : Responder SrvState :=
  fun sv req =>
    match req.method with
    | .GET =>
      (match srvLookup sv req.url with
       | some f => (sv, { status := 200, statusText := "OK", body := some (fileBody req.url f) })
       | none => (sv, resp404))
    | .PUT =>
      (match req.data with
       | none => (sv, resp422)
       | some d =>
         (match jStr d "content" with
          | none => (sv, resp422)
          | some c64 =>
            (match srvLookup sv req.url with
             | some f =>
               if jStr d "sha" = some f.sha then
                 (srvStore sv req.url ⟨c64, sv.ctr⟩,
                   { status := 200, statusText := "OK", body := some (.obj [("ok", .bool true)]) })
               else (sv, resp409)
             | none =>
               if jHas d "sha" then (sv, resp422)
               else
                 (srvStore sv req.url ⟨c64, sv.ctr⟩,
                   { status := 201, statusText := "Created",
                     body := some (.obj [("ok", .bool true)]) }))))
    | .DELETE =>
      (match srvLookup sv req.url with
       | some f =>
         ({ files := sv.files.filter (fun g => ¬ g.1 = req.url), ctr := sv.ctr },
           { status := 200, statusText := "OK", body := some (.obj [("ok", .bool true)]) })
       | none => (sv, resp404))
    | _ => (sv, resp404)

/-- Browser localStorage: string keys to string values; `getItem` returns
the most recent binding. -/
def LocalStorage : Type :=
  List (String × String)

/-- `localStorage.getItem` (`none` is JavaScript `null`). -/
def lsGet (ls : LocalStorage) (k : String) : Option String :=
  (ls.find? (fun e => e.1 = k)).map (fun e => e.2)

/-- `localStorage.setItem`. -/
def lsSet (ls : LocalStorage) (k v : String) : LocalStorage :=
  (k, v) :: ls

/-- JavaScript `JSON.parse(x)` where `x` is `getItem`'s possibly-`null`
result: `null` is coerced to the string `"null"`, which parses to the JSON
`null` value. -/
def jparseOpt (o : Option String) : Except Err JVal :=
  jparse (optS o)

/-- `x || d` on a possibly-`null` string: the default replaces both `null`
and the (falsy) empty string. -/
def strOrD (o : Option String) (d : String) : String :=
  match o with
  | some s => if s = "" then d else s
  | none => d

/-- `window.GITHUB_CONFIG`: the literal fields plus the token that
`getToken()` reads from sessionStorage (`none` when absent). -/
structure GHConfig where
  username : String
  repoName : String
  enabled : Bool
  token : Option String
deriving DecidableEq

/-- JavaScript truthiness of a possibly-`null` string. -/
def optT : Option String → Bool
  | none => false
  | some s => strT s

/-- The `DataManager` instance fields.  `initDone` models the memoized
`initPromise` in the atomic (run-to-completion) view used by the accessor
claims: `some b` is a settled promise resolved with `b`.  (The interleaved
view, with the promise pending across an accessor's await, is the separate
step model `istep` below.) -/
structure DMState where
  githubApi : Option GitHubAPI
  isInitialized : Bool
  useGitHub : Bool
  initDone : Option Bool
deriving DecidableEq

/-- A fresh `new DataManager()`. -/
def dmNew : DMState :=
  { githubApi := none, isInitialized := false, useGitHub := false, initDone := none }

/-- The whole world a `DataManager` method touches: the remote server state,
the browser's localStorage, and the instance fields. -/
structure World (σ : Type) where
  srv : σ
  ls : LocalStorage
  dm : DMState

/-- Run a `GitHubAPI` method inside the `DataManager` world. -/
def liftGh (m : StE σ α) : StE (World σ) α :=
  fun w =>
    match m w.srv with
    | (r, s1, l1) => (r, { w with srv := s1 }, l1)

/-- `DataManager.initialize`, atomic view: memoized behind `initDone`; when
the config is present, enabled and complete (truthy username, repoName and
token), construct the `GitHubAPI` and probe; select GitHub on success,
otherwise (incomplete config, disabled, absent config, failed probe) fall
back to localStorage.  The promise always resolves (`Except.ok`); the
`catch` branch of the source is unreachable here because `GitHubAPI.initialize`
itself never throws. -/
def DataManager.initialize (cfg : Option GHConfig) (respond : Responder σ) :
    StE (World σ) Bool :=
  fun w =>
    match w.dm.initDone with
    | some b => (.ok b, w, [])
    | none =>
      let localDM : DMState → DMState := fun d =>
        { d with useGitHub := false, isInitialized := true, initDone := some true }
      match cfg with
      | some c =>
        if c.enabled then
          (if strT c.username ∧ strT c.repoName ∧ optT c.token then
            let api0 : GitHubAPI := ⟨(c.token).getD "", none, none⟩
            let dm1 : DMState := { w.dm with githubApi := some api0 }
            match GitHubAPI.initialize api0 respond c.username c.repoName w.srv with
            | (.ok (success, api1), s1, l1) =>
              let dm2 : DMState := { dm1 with githubApi := some api1 }
              if success then
                let dm3 : DMState :=
                  { dm2 with useGitHub := true, isInitialized := true, initDone := some true }
                (.ok true, { w with srv := s1, dm := dm3 }, l1)
              else
                (.ok true, { w with srv := s1, dm := localDM dm2 }, l1)
            | (.error e, s1, l1) =>
              -- unreachable: `GitHubAPI.initialize` never throws
              let dm3 : DMState :=
                { dm1 with useGitHub := false, isInitialized := true, initDone := some false }
              (.ok false, { w with srv := s1, dm := dm3 }, l1)
          else
            (.ok true, { w with dm := localDM w.dm }, []))
        else
          (.ok true, { w with dm := localDM w.dm }, [])
      | none =>
        (.ok true, { w with dm := localDM w.dm }, [])

/-- `DataManager._ensureInitialized`. -/
def DataManager.ensureInitialized (cfg : Option GHConfig) (respond : Responder σ) :
    StE (World σ) Unit :=
  fun w =>
    if w.dm.isInitialized then (.ok (), w, [])
    else
      match DataManager.initialize cfg respond w with
      | (.ok _, w1, l1) => (.ok (), w1, l1)
      | (.error e, w1, l1) => (.error e, w1, l1)

/-- Zero-pad a natural to 2 digits. -/
def pad2 (n : Nat) : String :=
  if n < 10 then "0" ++ Nat.repr n else Nat.repr n

/-- Zero-pad a natural to 3 digits. -/
def pad3 (n : Nat) : String :=
  if n < 10 then "00" ++ Nat.repr n
  else if n < 100 then "0" ++ Nat.repr n
  else Nat.repr n

/-- Zero-pad a natural to 4 digits. -/
def pad4 (n : Nat) : String :=
  if n < 10 then "000" ++ Nat.repr n
  else if n < 100 then "00" ++ Nat.repr n
  else if n < 1000 then "0" ++ Nat.repr n
  else Nat.repr n

/-- `Date.prototype.toISOString` for an epoch-milliseconds clock value
(civil-from-days conversion; the environment's clock is modelled in UTC,
where `setDate(getDate()-1)` is exactly one day of milliseconds). -/
def isoString (ms : Nat) : String :=
  let z := ms / 86400000 + 719468
  let era := z / 146097
  let doe := z % 146097
  let yoe := (doe - doe / 1460 + doe / 36524 - doe / 146096) / 365
  let y := yoe + era * 400
  let doy := doe - (365 * yoe + yoe / 4 - yoe / 100)
  let mp := (5 * doy + 2) / 153
  let d := doy - (153 * mp + 2) / 5 + 1
  let m := if mp < 10 then mp + 3 else mp - 9
  let year := if m ≤ 2 then y + 1 else y
  pad4 year ++ "-" ++ pad2 m ++ "-" ++ pad2 d ++ "T"
    ++ pad2 (ms / 3600000 % 24) ++ ":" ++ pad2 (ms / 60000 % 60) ++ ":"
    ++ pad2 (ms / 1000 % 60) ++ "." ++ pad3 (ms % 1000) ++ "Z"

/-- `DataManager._createSampleNewsData`, with the ambient clock passed in as
epoch milliseconds: three sample items dated now, yesterday and two days
ago. -/
def createSampleNewsData (now : Nat) : JVal :=
  let yesterday := now - 86400000
  let twoDaysAgo := now - 172800000
  .arr [
    .obj [("id", .str "1"), ("title", .str "Welcome to NOARZ"),
      ("category", .str "roblox-script"),
      ("content", .str "Welcome to our news platform! This is a sample post to show how the system works."),
      ("coverImageUrl", .str "https://i.imgur.com/IuN9n69.jpg"),
      ("galleryImages", .arr [.str "https://i.imgur.com/IuN9n69.jpg",
        .str "https://i.imgur.com/jCgYAFB.jpg"]),
      ("date", .str (isoString now)), ("edited", .null)],
    .obj [("id", .str "2"), ("title", .str "New Features Coming Soon"),
      ("category", .str "runner"),
      ("content", .str "We are working on exciting new features for our platform. Stay tuned for updates!"),
      ("coverImageUrl", .str "https://i.imgur.com/jCgYAFB.jpg"),
      ("galleryImages", .arr [.str "https://i.imgur.com/jCgYAFB.jpg",
        .str "https://i.imgur.com/UKQEMkT.jpg"]),
      ("date", .str (isoString yesterday)), ("edited", .null)],
    .obj [("id", .str "3"), ("title", .str "How to Use the Admin Panel"),
      ("category", .str "roblox-script"),
      ("content", .str "This guide explains how to use the admin panel to manage your news posts."),
      ("coverImageUrl", .str "https://i.imgur.com/UKQEMkT.jpg"),
      ("galleryImages", .arr [.str "https://i.imgur.com/IuN9n69.jpg",
        .str "https://i.imgur.com/jCgYAFB.jpg", .str "https://i.imgur.com/UKQEMkT.jpg",
        .str "https://i.imgur.com/YTKM8bR.jpg"]),
      ("date", .str (isoString twoDaysAgo)), ("edited", .null)]]

/-- Fetch the instance's `githubApi` or throw the `TypeError` JavaScript
raises when calling a method on `null` (never reached when `useGitHub`
holds). -/
def nullApiErr : Err :=
  ⟨"TypeError: this.githubApi is null"⟩

/-- `DataManager.getNewsItems`: after ensuring initialization, dispatch to
the GitHub accessor or to localStorage (`JSON.parse` of the stored string —
with no catch, so a malformed string throws — falling back to the sample
data when the parse result is falsy).  `now` is the ambient clock. -/
def DataManager.getNewsItems (cfg : Option GHConfig) (respond : Responder σ)
    (now : Nat) : StE (World σ) JVal :=
  seqE ( DataManager.ensureInitialized cfg respond)
    (fun _ => fun w =>
      if w.dm.useGitHub then
        match w.dm.githubApi with
        | some api => liftGh ( GitHubAPI.getNewsItems api respond) w
        | none => (.error nullApiErr, w, [])
      else
        match jparseOpt (lsGet w.ls "jjkNews") with
        | .ok newsItems =>
          if truthy newsItems then (.ok newsItems, w, [])
          else (.ok (createSampleNewsData now), w, [])
        | .error e => (.error e, w, []))

/-- `DataManager.saveNewsItems`. -/
def DataManager.saveNewsItems (cfg : Option GHConfig) (respond : Responder σ)
    (newsItems : JVal) : StE (World σ) Bool :=
  seqE ( DataManager.ensureInitialized cfg respond)
    (fun _ => fun w =>
      if w.dm.useGitHub then
        match w.dm.githubApi with
        | some api => liftGh ( GitHubAPI.saveNewsItems api respond newsItems) w
        | none => (.error nullApiErr, w, [])
      else
        (.ok true, { w with ls := lsSet w.ls "jjkNews" (jstringify newsItems) }, []))

/-- `DataManager.getSiteSettings`: the local branch reads the two individual
keys with `|| default` fallbacks and rebuilds the object. -/
def DataManager.getSiteSettings (cfg : Option GHConfig) (respond : Responder σ) :
    StE (World σ) JVal :=
  seqE ( DataManager.ensureInitialized cfg respond)
    (fun _ => fun w =>
      if w.dm.useGitHub then
        match w.dm.githubApi with
        | some api => liftGh ( GitHubAPI.getSiteSettings api respond) w
        | none => (.error nullApiErr, w, [])
      else
        (.ok (.obj [("siteTitle", .str (strOrD (lsGet w.ls "jjkSiteTitle") "NOARZ")),
          ("newsHeader", .str (strOrD (lsGet w.ls "jjkNewsHeader") "📰MESSAGE📣"))]),
          w, []))

/-- `DataManager.saveSiteSettings`: the local branch stores the two fields
under individual keys, coercing each field value to a string the way
`setItem` does. -/
def DataManager.saveSiteSettings (cfg : Option GHConfig) (respond : Responder σ)
    (settings : JVal) : StE (World σ) Bool :=
  seqE ( DataManager.ensureInitialized cfg respond)
    (fun _ => fun w =>
      if w.dm.useGitHub then
        match w.dm.githubApi with
        | some api => liftGh ( GitHubAPI.saveSiteSettings api respond settings) w
        | none => (.error nullApiErr, w, [])
      else
        let v1 := match jGet settings "siteTitle" with
          | some x => jsToStr x
          | none => "undefined"
        let v2 := match jGet settings "newsHeader" with
          | some x => jsToStr x
          | none => "undefined"
        (.ok true, { w with ls := lsSet (lsSet w.ls "jjkSiteTitle" v1) "jjkNewsHeader" v2 }, []))

/-- `DataManager.getSocialLinks`: the local branch is
`JSON.parse(getItem) || default` — again with no catch around the parse. -/
def DataManager.getSocialLinks (cfg : Option GHConfig) (respond : Responder σ) :
    StE (World σ) JVal :=
  seqE ( DataManager.ensureInitialized cfg respond)
    (fun _ => fun w =>
      if w.dm.useGitHub then
        match w.dm.githubApi with
        | some api => liftGh ( GitHubAPI.getSocialLinks api respond) w
        | none => (.error nullApiErr, w, [])
      else
        match jparseOpt (lsGet w.ls "jjkSocialLinks") with
        | .ok socialLinks =>
          if truthy socialLinks then (.ok socialLinks, w, [])
          else (.ok socialDefault, w, [])
        | .error e => (.error e, w, []))

/-- `DataManager.saveSocialLinks`. -/
def DataManager.saveSocialLinks (cfg : Option GHConfig) (respond : Responder σ)
    (links : JVal) : StE (World σ) Bool :=
  seqE ( DataManager.ensureInitialized cfg respond)
    (fun _ => fun w =>
      if w.dm.useGitHub then
        match w.dm.githubApi with
        | some api => liftGh ( GitHubAPI.saveSocialLinks api respond links) w
        | none => (.error nullApiErr, w, [])
      else
        (.ok true, { w with ls := lsSet w.ls "jjkSocialLinks" (jstringify links) }, []))

/-- `DataManager.getAdminSettings`: the local branch reads one key with an
`|| default` fallback. -/
def DataManager.getAdminSettings (cfg : Option GHConfig) (respond : Responder σ) :
    StE (World σ) JVal :=
  seqE ( DataManager.ensureInitialized cfg respond)
    (fun _ => fun w =>
      if w.dm.useGitHub then
        match w.dm.githubApi with
        | some api => liftGh ( GitHubAPI.getAdminSettings api respond) w
        | none => (.error nullApiErr, w, [])
      else
        (.ok (.obj [("adminCode", .str (strOrD (lsGet w.ls "jjkAdminCode") "0988131688"))]),
          w, []))

/-- `DataManager.saveAdminSettings`. -/
def DataManager.saveAdminSettings (cfg : Option GHConfig) (respond : Responder σ)
    (settings : JVal) : StE (World σ) Bool :=
  seqE ( DataManager.ensureInitialized cfg respond)
    (fun _ => fun w =>
      if w.dm.useGitHub then
        match w.dm.githubApi with
        | some api => liftGh ( GitHubAPI.saveAdminSettings api respond settings) w
        | none => (.error nullApiErr, w, [])
      else
        let v1 := match jGet settings "adminCode" with
          | some x => jsToStr x
          | none => "undefined"
        (.ok true, { w with ls := lsSet w.ls "jjkAdminCode" v1 }, []))

/-- Events of the interleaved initialization model: a caller invokes
`initialize` (directly or through `_ensureInitialized` from any accessor),
or the pending connectivity probe settles with `ok`. -/
inductive IEvent where
  | callInit : IEvent
  | probeSettles : Bool → IEvent
deriving DecidableEq

/-- State of the interleaved initialization model.  `initPromise` holds the
identity (a serial number) of the shared promise once created; `promiseCtr`
mints identities; `pendingProbe` is true between the synchronous prefix of
the executor (which runs as far as the `await` of the probe) and the probe's
settlement.  `probeStarts` counts probes started and `returns` records the
promise identity handed to each `initialize` caller — both ghost fields, for
stating the claim. -/
structure IState where
  initPromise : Option Nat
  promiseCtr : Nat
  pendingProbe : Bool
  isInitialized : Bool
  useGitHub : Bool
  probeStarts : Nat
  returns : List Nat
deriving DecidableEq

/-- The state of a fresh `DataManager` in the interleaved model. -/
def iInit : IState :=
  { initPromise := none, promiseCtr := 0, pendingProbe := false,
    isInitialized := false, useGitHub := false, probeStarts := 0, returns := [] }

/-- Is the configuration present, enabled and complete, so that the executor
suspends at the probe's `await`?  Otherwise the executor runs to completion
synchronously, selecting localStorage. -/
def cfgComplete : Option GHConfig → Bool
  | some c => c.enabled && strT c.username && strT c.repoName && optT c.token
  | none => false

/-- One step of the interleaved initialization model, embedding lines 19–64
and 70–74 of the `DataManager` source: a call to `initialize` first checks
`this.initPromise` and returns it unchanged when set; otherwise the
`Promise` constructor runs the executor synchronously up to its first
`await` (so `initPromise` is already set when the call returns), either
starting the probe or completing locally; a settling probe resolves the
selection.  A `probeSettles` event with no probe pending is a no-op (the
scheduler never produces it). -/
def istep (cfg : Option GHConfig) (s : IState) : IEvent → IState
  | .callInit =>
    match s.initPromise with
    | some p => { s with returns := s.returns ++ [p] }
    | none =>
      let pid := s.promiseCtr
      if cfgComplete cfg then
        { s with
          initPromise := some pid, promiseCtr := s.promiseCtr + 1,
          pendingProbe := true, probeStarts := s.probeStarts + 1,
          returns := s.returns ++ [pid] }
      else
        { s with
          initPromise := some pid, promiseCtr := s.promiseCtr + 1,
          isInitialized := true, useGitHub := false,
          returns := s.returns ++ [pid] }
  | .probeSettles ok =>
    if s.pendingProbe then
      { s with pendingProbe := false, isInitialized := true, useGitHub := ok }
    else s

/-- Run the interleaved model over an event schedule. -/
def irun (cfg : Option GHConfig) (es : List IEvent) : IState :=
  es.foldl (istep cfg) iInit

mutual

/-- Fuel a value needs in `pVal` (one unit per grammar step). -/
def jfuel : JVal → Nat
  | .arr vs => jfuelA vs + 1
  | .obj ms => jfuelM ms + 1
  | _ => 1

/-- Fuel an item list needs in `pItems`. -/
def jfuelA : List JVal → Nat
  | [] => 1
  | v :: vs => jfuel v + jfuelA vs + 1

/-- Fuel a member list needs in `pMems`. -/
def jfuelM : List (String × JVal) → Nat
  | [] => 1
  | m :: ms => jfuel m.2 + jfuelM ms + 1

end

mutual

/-- Number-freeness of a JSON value: the document kinds this program stores
contain no numbers (JavaScript numbers are floats and are outside the
model, see the module comment). -/
def noNum : JVal → Bool
  | .null => true
  | .bool _ => true
  | .num _ => false
  | .str _ => true
  | .arr vs => noNumA vs
  | .obj ms => noNumM ms

/-- Number-freeness of an item list. -/
def noNumA : List JVal → Bool
  | [] => true
  | v :: vs => noNum v && noNumA vs

/-- Number-freeness of a member list. -/
def noNumM : List (String × JVal) → Bool
  | [] => true
  | m :: ms => noNum m.2 && noNumM ms

end

/-- All code units below 256, i.e. the string survives `btoa`. -/
def latin1 (s : String) : Bool :=
  s.data.all (fun c => c.toNat < 256)

/-- The `id` fields of a news collection, in order. -/
def newsIds : JVal → List (Option String)
  | .arr items => items.map (fun it => jStr it "id")
  | _ => []

/-! ## String and list groundwork -/

theorem data_append (s t : String) : (s ++ t).data = s.data ++ t.data := by
  cases s
  cases t
  rfl

theorem mk_data (s : String) : String.mk s.data = s := by
  cases s
  rfl

/-! ## JSON: the parser inverts the printer -/

theorem escStr_nil : escStr [] = [] := rfl

theorem escStr_cons (c : Char) (cs : List Char) :
    escStr (c :: cs) = escC c ++ escStr cs := by
  simp [escStr]

theorem pStr_quote (rest : List Char) : pStr ('"' :: rest) = some ([], rest) := by
  rw [pStr.eq_def]
  simp

theorem pStr_esc (e : Char) (rest : List Char) (he : e = '"' ∨ e = '\\') :
    pStr ('\\' :: e :: rest)
      = match pStr rest with
        | some (s, r) => some (e :: s, r)
        | none => none := by
  rw [pStr.eq_def]
  simp [he]

theorem pStr_plain (c : Char) (rest : List Char) (h1 : ¬ c = '"') (h2 : ¬ c = '\\') :
    pStr (c :: rest)
      = match pStr rest with
        | some (s, r) => some (c :: s, r)
        | none => none := by
  rw [pStr.eq_def]
  simp [h1, h2]

/-- Lemma A: the string-body parser inverts the escaper, leaving the rest of
the input after the closing quote untouched. -/
theorem pStr_escStr (s : List Char) :
    ∀ rest, pStr (escStr s ++ '"' :: rest) = some (s, rest) := by
  induction s with
  | nil =>
    intro rest
    rw [escStr_nil]
    exact pStr_quote rest
  | cons c cs ih =>
    intro rest
    rw [escStr_cons]
    by_cases hq : c = '"'
    · subst hq
      have h1 : escC '"' = ['\\', '"'] := by decide
      rw [h1]
      simp only [List.cons_append, List.nil_append]
      rw [pStr_esc _ _ (Or.inl rfl), ih rest]
    · by_cases hb : c = '\\'
      · subst hb
        have h1 : escC '\\' = ['\\', '\\'] := by decide
        rw [h1]
        simp only [List.cons_append, List.nil_append]
        rw [pStr_esc _ _ (Or.inr rfl), ih rest]
      · have h1 : escC c = [c] := by simp [escC, hq, hb]
        rw [h1]
        simp only [List.cons_append, List.nil_append]
        rw [pStr_plain c _ hq hb, ih rest]

theorem pVal_zero (cs : List Char) : pVal 0 cs = none := rfl

theorem pVal_rbracket (fuel : Nat) (cs : List Char) : pVal fuel (']' :: cs) = none := by
  cases fuel with
  | zero => rfl
  | succ f => simp [pVal]

theorem jfuel_pos (v : JVal) : 1 ≤ jfuel v := by
  cases v <;> simp [jfuel]

theorem jfuelA_pos (vs : List JVal) : 1 ≤ jfuelA vs := by
  cases vs with
  | nil => simp [jfuelA]
  | cons v vs => simp [jfuelA]

theorem jfuelM_pos (ms : List (String × JVal)) : 1 ≤ jfuelM ms := by
  cases ms with
  | nil => simp [jfuelM]
  | cons m ms => simp [jfuelM]

/-- Lemma B: with enough fuel, the value parser inverts the printer, and the
item/member parsers invert the list printers up to their closing
delimiter — mutual statement, induction on fuel. -/
theorem pVal_rt : ∀ fuel : Nat,
    (∀ v rest, noNum v = true → jfuel v ≤ fuel →
      pVal fuel (sify v ++ rest) = some (v, rest)) ∧
    (∀ vs rest, noNumA vs = true → jfuelA vs ≤ fuel →
      pItems fuel (sifyArr vs ++ ']' :: rest) = some (vs, rest)) ∧
    (∀ ms rest, noNumM ms = true → jfuelM ms ≤ fuel →
      pMems fuel (sifyObj ms ++ '}' :: rest) = some (ms, rest)) := by
  intro fuel
  induction fuel with
  | zero =>
    refine ⟨?_, ?_, ?_⟩
    · intro v rest hn hf
      exact absurd hf (by have := jfuel_pos v; omega)
    · intro vs rest hn hf
      exact absurd hf (by have := jfuelA_pos vs; omega)
    · intro ms rest hn hf
      exact absurd hf (by have := jfuelM_pos ms; omega)
  | succ f ih =>
    obtain ⟨ihV, ihA, ihM⟩ := ih
    refine ⟨?_, ?_, ?_⟩
    · intro v rest hn hf
      cases v with
      | null => simp [sify, pVal]
      | bool b => cases b <;> simp [sify, pVal]
      | num n => simp [noNum] at hn
      | str s =>
        simp only [sify, List.cons_append, List.append_assoc, List.nil_append]
        simp only [pVal]
        rw [pStr_escStr s.data rest]
      | arr vs =>
        have hnA : noNumA vs = true := by simpa [noNum] using hn
        have hfA : jfuelA vs ≤ f := by simp only [jfuel] at hf; omega
        simp only [sify, List.cons_append, List.append_assoc, List.cons_append,
          List.nil_append]
        simp only [pVal]
        rw [ihA vs rest hnA hfA]
      | obj ms =>
        have hnM : noNumM ms = true := by simpa [noNum] using hn
        have hfM : jfuelM ms ≤ f := by simp only [jfuel] at hf; omega
        simp only [sify, List.cons_append, List.append_assoc, List.cons_append,
          List.nil_append]
        simp only [pVal]
        rw [ihM ms rest hnM hfM]
    · intro vs rest hn hf
      cases vs with
      | nil =>
        simp only [sifyArr, List.nil_append, pItems]
        rw [pVal_rbracket]
      | cons v vtl =>
        have hnV : noNum v = true := by simp [noNumA] at hn; exact hn.1
        have hnT : noNumA vtl = true := by simp [noNumA] at hn; exact hn.2
        have hfV : jfuel v ≤ f := by
          simp only [jfuelA] at hf
          have := jfuelA_pos vtl
          omega
        cases vtl with
        | nil =>
          simp only [sifyArr, List.cons_append, pItems]
          rw [ihV v (']' :: rest) hnV hfV]
          rfl
        | cons v2 vtl2 =>
          have hfT : jfuelA (v2 :: vtl2) ≤ f := by
            simp only [jfuelA] at hf ⊢
            have := jfuel_pos v
            omega
          simp only [sifyArr, List.cons_append, List.append_assoc, List.cons_append,
            pItems]
          rw [ihV v _ hnV hfV]
          simp only []
          rw [ihA (v2 :: vtl2) rest hnT hfT]
    · intro ms rest hn hf
      cases ms with
      | nil =>
        simp only [sifyObj, List.nil_append, pMems]
      | cons m mtl =>
        obtain ⟨k, v⟩ := m
        have hnV : noNum v = true := by simp [noNumM] at hn; exact hn.1
        have hnT : noNumM mtl = true := by simp [noNumM] at hn; exact hn.2
        have hfV : jfuel v ≤ f := by
          simp only [jfuelM] at hf
          have := jfuelM_pos mtl
          omega
        cases mtl with
        | nil =>
          simp only [sifyObj, sifyMem, List.cons_append, List.append_assoc,
            List.nil_append, pMems]
          rw [pStr_escStr k.data]
          simp only []
          rw [ihV v ('}' :: rest) hnV hfV]
          simp [mk_data]
        | cons m2 mtl2 =>
          have hfT : jfuelM (m2 :: mtl2) ≤ f := by
            simp only [jfuelM] at hf ⊢
            have := jfuel_pos v
            omega
          simp only [sifyObj, sifyMem, List.cons_append, List.append_assoc,
            List.nil_append, pMems]
          rw [pStr_escStr k.data]
          simp only []
          rw [ihV v _ hnV hfV]
          simp only []
          rw [ihM (m2 :: mtl2) rest hnT hfT]

mutual

/-- The fuel a number-free value needs is within the budget `jparse` grants
(value form). -/
theorem jfuel_le : ∀ v : JVal, noNum v = true → jfuel v + 1 ≤ 2 * (sify v).length
  | .null, _ => by decide
  | .bool true, _ => by decide
  | .bool false, _ => by decide
  | .num n, hn => by simp [noNum] at hn
  | .str s, _ => by
    simp only [jfuel, sify, List.length_cons, List.length_append]
    omega
  | .arr vs, hn => by
    have h2 := jfuelA_le vs (by simpa [noNum] using hn)
    simp only [jfuel, sify, List.length_cons, List.length_append]
    simp only [List.length_cons, List.length_nil] at h2 ⊢
    omega
  | .obj ms, hn => by
    have h2 := jfuelM_le ms (by simpa [noNum] using hn)
    simp only [jfuel, sify, List.length_cons, List.length_append]
    simp only [List.length_cons, List.length_nil] at h2 ⊢
    omega

/-- Fuel bound, item-list form. -/
theorem jfuelA_le : ∀ vs : List JVal, noNumA vs = true → jfuelA vs ≤ 2 * (sifyArr vs).length + 2
  | [], _ => by decide
  | [v], hn => by
    have h1 := jfuel_le v (by simp [noNumA] at hn; exact hn)
    simp only [jfuelA, sifyArr]
    omega
  | v :: v2 :: vtl, hn => by
    have hnV : noNum v = true := by simp [noNumA] at hn; exact hn.1
    have hnT : noNumA (v2 :: vtl) = true := by
      simp only [noNumA, Bool.and_eq_true] at hn ⊢
      exact hn.2
    have h1 := jfuel_le v hnV
    have h2 := jfuelA_le (v2 :: vtl) hnT
    simp only [jfuelA, sifyArr, List.length_append, List.length_cons] at h1 h2 ⊢
    omega

/-- Fuel bound, member-list form. -/
theorem jfuelM_le : ∀ ms : List (String × JVal),
    noNumM ms = true → jfuelM ms ≤ 2 * (sifyObj ms).length + 2
  | [], _ => by decide
  | [(k, v)], hn => by
    have h1 := jfuel_le v (by simp [noNumM] at hn; exact hn)
    simp only [jfuelM, sifyObj, sifyMem, List.length_cons, List.length_append]
    omega
  | (k, v) :: m2 :: mtl, hn => by
    have hnV : noNum v = true := by simp [noNumM] at hn; exact hn.1
    have hnT : noNumM (m2 :: mtl) = true := by
      simp only [noNumM, Bool.and_eq_true] at hn ⊢
      exact hn.2
    have h1 := jfuel_le v hnV
    have h2 := jfuelM_le (m2 :: mtl) hnT
    simp only [jfuelM, sifyObj, sifyMem, List.length_append, List.length_cons] at h1 h2 ⊢
    omega

end

/-- The headline JSON fact: `JSON.parse` inverts `JSON.stringify` on every
number-free value. -/
theorem jparse_jstringify (v : JVal) (hn : noNum v = true) :
    jparse (jstringify v) = .ok v := by
  have hrt := (pVal_rt (2 * (sify v).length + 2)).1 v [] hn
    (by have := jfuel_le v hn; omega)
  rw [List.append_nil] at hrt
  unfold jparse jstringify
  have hd : (String.mk (sify v)).data = sify v := rfl
  rw [hd, hrt]

/-! ## Base64: `atob` inverts `btoa` -/

theorem b64i_b64c : ∀ n, n < 64 → b64i (b64c n) = some n := by decide

theorem b64c_ne_pad : ∀ n, n < 64 → ¬ b64c n = '=' := by decide

/-- `decB` inverts `encB` on byte lists. -/
theorem decB_encB : ∀ bs : List Nat, (∀ b ∈ bs, b < 256) → decB (encB bs) = some bs := by
  intro bs
  induction bs using encB.induct with
  | case1 => intro h; rfl
  | case2 a =>
    intro h
    have ha : a < 256 := h a (by simp)
    have h1 := b64i_b64c (a / 4) (by omega)
    have h2 := b64i_b64c (a % 4 * 16) (by omega)
    simp [encB, decB, h1, h2]
    omega
  | case3 a b =>
    intro h
    have ha : a < 256 := h a (by simp)
    have hb : b < 256 := h b (by simp)
    have h1 := b64i_b64c (a / 4) (by omega)
    have h2 := b64i_b64c (a % 4 * 16 + b / 16) (by omega)
    have h3 := b64i_b64c (b % 16 * 4) (by omega)
    have hne : ¬ b64c (b % 16 * 4) = '=' := b64c_ne_pad _ (by omega)
    simp [encB, decB, h1, h2, h3, hne]
    constructor
    · omega
    · omega
  | case4 a b c rest ih =>
    intro h
    have ha : a < 256 := h a (by simp)
    have hb : b < 256 := h b (by simp)
    have hc : c < 256 := h c (by simp)
    have hrest : ∀ x ∈ rest, x < 256 := by
      intro x hx
      exact h x (by simp [hx])
    have h1 := b64i_b64c (a / 4) (by omega)
    have h2 := b64i_b64c (a % 4 * 16 + b / 16) (by omega)
    have h3 := b64i_b64c (b % 16 * 4 + c / 64) (by omega)
    have h4 := b64i_b64c (c % 64) (by omega)
    have hne3 : ¬ b64c (b % 16 * 4 + c / 64) = '=' := b64c_ne_pad _ (by omega)
    have hne4 : ¬ b64c (c % 64) = '=' := b64c_ne_pad _ (by omega)
    simp [encB, decB, h1, h2, h3, h4, hne3, hne4, ih hrest]
    refine ⟨by omega, by omega, by omega⟩

/-- `btoa` succeeds on Latin-1 strings, producing the base64 of the code
units. -/
theorem btoaE_ok (s : String) (h : latin1 s = true) :
    btoaE s = .ok (String.mk (encB (s.data.map Char.toNat))) := by
  unfold btoaE
  simp only [latin1] at h
  rw [h]
  simp

/-- `atob` inverts `btoa` on Latin-1 strings. -/
theorem atobE_btoaE (s : String) (h : latin1 s = true) :
    atobE (String.mk (encB (s.data.map Char.toNat))) = .ok s := by
  have hb : ∀ b ∈ s.data.map Char.toNat, b < 256 := by
    intro b hbm
    obtain ⟨c, hc, rfl⟩ := List.mem_map.1 hbm
    have := List.all_eq_true.1 h c hc
    simpa using this
  unfold atobE
  have hd : (String.mk (encB (s.data.map Char.toNat))).data = encB (s.data.map Char.toNat) := rfl
  rw [hd, decB_encB _ hb]
  simp only []
  have hmm : (s.data.map Char.toNat).map Char.ofNat = s.data := by
    rw [List.map_map]
    have : ∀ c ∈ s.data, (Char.ofNat ∘ Char.toNat) c = id c := by
      intro c hc
      simp [Char.ofNat_toNat]
    rw [List.map_congr_left this, List.map_id]
  simp [hmm]

/-! ## `String.prototype.includes` -/

theorem headMatch_self (p t : List Char) : headMatch p (p ++ t) = true := by
  induction p with
  | nil => rfl
  | cons c cs ih => simp [headMatch, ih]

theorem subMatch_append (p t a : List Char) : subMatch p (a ++ (p ++ t)) = true := by
  induction a with
  | nil =>
    simp only [List.nil_append]
    cases hpt : p ++ t with
    | nil =>
      obtain ⟨hp, ht⟩ := List.append_eq_nil.mp hpt
      subst hp
      subst ht
      rfl
    | cons c cs =>
      have hm : headMatch p (c :: cs) = true := by
        rw [← hpt]
        exact headMatch_self p t
      simp [subMatch, hm]
  | cons x xs ih =>
    simp only [List.cons_append]
    simp [subMatch, ih]

/-- A string surrounded by anything contains itself. -/
theorem strIncludes_sandwich (a m b : String) : strIncludes (a ++ (m ++ b)) m = true := by
  unfold strIncludes
  rw [data_append, data_append]
  exact subMatch_append m.data b.data a.data

/-- The message `makeRequest` builds for a 404 response always contains the
substring `"404"`. -/
theorem httpErrMsg_404 (resp : FetchResp) (h : resp.status = 404) :
    strIncludes (httpErrMsg resp) "404" = true := by
  unfold strIncludes httpErrMsg
  rw [h]
  have h404 : Nat.repr 404 = "404" := rfl
  rw [h404]
  simp only [data_append, List.append_assoc]
  exact subMatch_append _ _ _

/-! ## `getFile` under an arbitrary responder -/

theorem okb_of_status_404 (resp : FetchResp) (h : resp.status = 404) :
    resp.okb = false := by
  simp [FetchResp.okb, h]

/-- When the remote answers the GET with a 404 (whatever the status text and
body), `getFile` returns `ok none` after exactly that one request. -/
theorem getFile_404 (σ : Type) (respond : Responder σ) (s s1 : σ) (api : GitHubAPI)
    (path : String) (resp : FetchResp)
    (hr : respond s ⟨apiBaseUrl ++ contentsEndpoint api path, .GET, none⟩ = (s1, resp))
    (hst : resp.status = 404) :
    GitHubAPI.getFile api respond path s =
      (.ok none, s1, [⟨apiBaseUrl ++ contentsEndpoint api path, .GET, none⟩]) := by
  unfold GitHubAPI.getFile tryE seqE makeRequest
  simp only [Option.isSome_none, Bool.false_eq_true, false_and, if_false, reduceIte]
  rw [hr]
  simp only [okb_of_status_404 resp hst, Bool.false_eq_true, if_false, reduceIte]
  simp [throwE, pureE, httpErrMsg_404 resp hst]

/-- When the remote answers the GET with a non-ok response whose fabricated
error message does not contain `"404"`, `getFile` re-throws the error. -/
theorem getFile_propagates (σ : Type) (respond : Responder σ) (s s1 : σ)
    (api : GitHubAPI) (path : String) (resp : FetchResp)
    (hr : respond s ⟨apiBaseUrl ++ contentsEndpoint api path, .GET, none⟩ = (s1, resp))
    (hok : resp.okb = false)
    (hni : strIncludes (httpErrMsg resp) "404" = false) :
    GitHubAPI.getFile api respond path s =
      (.error ⟨httpErrMsg resp⟩, s1,
        [⟨apiBaseUrl ++ contentsEndpoint api path, .GET, none⟩]) := by
  unfold GitHubAPI.getFile tryE seqE makeRequest
  simp only [Option.isSome_none, Bool.false_eq_true, false_and, if_false, reduceIte]
  rw [hr]
  simp only [hok, Bool.false_eq_true, if_false, reduceIte]
  simp [throwE, pureE, hni]

/-- When the remote answers the GET with an ok (non-204) response carrying
string `content`/`sha`/`path` fields and the content base64-decodes,
`getFile` returns the decoded file after exactly that one request. -/
theorem getFile_ok (σ : Type) (respond : Responder σ) (s s1 : σ) (api : GitHubAPI)
    (path : String) (resp : FetchResp) (bj : JVal) (c64 sh p content : String)
    (hr : respond s ⟨apiBaseUrl ++ contentsEndpoint api path, .GET, none⟩ = (s1, resp))
    (hok : resp.okb = true) (h204 : ¬ resp.status = 204)
    (hbody : resp.body = some bj)
    (hc : jStr bj "content" = some c64)
    (hsha : jStr bj "sha" = some sh)
    (hp : jStr bj "path" = some p)
    (hato : atobE c64 = .ok content) :
    GitHubAPI.getFile api respond path s =
      (.ok (some ⟨content, sh, p⟩), s1,
        [⟨apiBaseUrl ++ contentsEndpoint api path, .GET, none⟩]) := by
  unfold GitHubAPI.getFile tryE seqE makeRequest
  simp only [Option.isSome_none, Bool.false_eq_true, false_and, if_false, reduceIte]
  rw [hr]
  simp only [hok, if_true, reduceIte]
  have hmeth : ¬ ((HMethod.GET = HMethod.HEAD) ∨ resp.status = 204) := by
    simp [h204]
  simp only [hmeth, if_false, reduceIte]
  rw [hbody]
  simp only [hc, hsha, hp]
  rw [hato]
  simp [pureE]

/-- Whatever the response, `makeRequest` logs exactly its one request. -/
theorem makeRequest_log (σ : Type) (api : GitHubAPI) (respond : Responder σ)
    (endpoint : String) (method : HMethod) (data : Option JVal) (s : σ) :
    (makeRequest api respond endpoint method data s).2.2 =
      [⟨apiBaseUrl ++ endpoint, method,
        if data.isSome ∧ (method = .POST ∨ method = .PUT ∨ method = .PATCH)
        then data else none⟩] := by
  unfold makeRequest
  simp only []
  repeat' split
  all_goals rfl

/-- `deleteFile` on a path the remote reports 404 for: the not-found error
is thrown after the single GET, and no DELETE request is ever issued. -/
theorem deleteFile_absent (σ : Type) (respond : Responder σ) (s s1 : σ)
    (api : GitHubAPI) (path message : String) (resp : FetchResp)
    (hr : respond s ⟨apiBaseUrl ++ contentsEndpoint api path, .GET, none⟩ = (s1, resp))
    (hst : resp.status = 404) :
    GitHubAPI.deleteFile api respond path message s =
      (.error ⟨"File not found: " ++ path⟩, s1,
        [⟨apiBaseUrl ++ contentsEndpoint api path, .GET, none⟩]) := by
  unfold GitHubAPI.deleteFile seqE
  rw [getFile_404 σ respond s s1 api path resp hr hst]
  simp [throwE]

/-- `saveFile` on an existing path (well-formed GET response, nonempty sha,
matching the source's `if (sha)` truthiness check): the log is the GET
followed by a PUT whose payload carries the sha the GET returned. -/
theorem saveFile_log_existing (σ : Type) (respond : Responder σ) (s s1 : σ)
    (api : GitHubAPI) (path message : String) (resp : FetchResp) (bj : JVal)
    (c64 sh p content newContent : String)
    (hr : respond s ⟨apiBaseUrl ++ contentsEndpoint api path, .GET, none⟩ = (s1, resp))
    (hok : resp.okb = true) (h204 : ¬ resp.status = 204)
    (hbody : resp.body = some bj)
    (hc : jStr bj "content" = some c64)
    (hsha : jStr bj "sha" = some sh)
    (hsh : ¬ sh = "")
    (hp : jStr bj "path" = some p)
    (hato : atobE c64 = .ok content)
    (hbt : latin1 newContent = true) :
    (GitHubAPI.saveFile api respond path newContent message s).2.2 =
      [⟨apiBaseUrl ++ contentsEndpoint api path, .GET, none⟩,
       ⟨apiBaseUrl ++ contentsEndpoint api path, .PUT,
        some (.obj [("message", .str message),
          ("content", .str (String.mk (encB (newContent.data.map Char.toNat)))),
          ("branch", .str "main"), ("sha", .str sh)])⟩] := by
  have hst : strT sh = true := by simp [strT, hsh]
  unfold GitHubAPI.saveFile seqE
  rw [getFile_ok σ respond s s1 api path resp bj c64 sh p content hr hok h204 hbody
    hc hsha hp hato]
  simp only [Option.map_some', btoaE_ok newContent hbt, hst, if_true, reduceIte]
  have hl := makeRequest_log σ api respond (contentsEndpoint api path) .PUT
    (some (.obj [("message", .str message),
      ("content", .str (String.mk (encB (newContent.data.map Char.toNat)))),
      ("branch", .str "main"), ("sha", .str sh)])) s1
  simp only [Option.isSome_some, true_and, or_true, true_or, reduceIte] at hl
  simpa using hl

/-! ## The modelled GitHub server -/

theorem srvLookup_store_self (sv : SrvState) (url : String) (f : SrvFile) :
    srvLookup (srvStore sv url f) url = some f := by
  simp [srvLookup, srvStore, List.find?]

theorem gitHubRespond_get_absent (sv : SrvState) (url : String)
    (h : srvLookup sv url = none) :
    gitHubRespond sv ⟨url, .GET, none⟩ = (sv, resp404) := by
  simp [gitHubRespond, h]

theorem gitHubRespond_get_present (sv : SrvState) (url : String) (f : SrvFile)
    (h : srvLookup sv url = some f) :
    gitHubRespond sv ⟨url, .GET, none⟩ =
      (sv, { status := 200, statusText := "OK", body := some (fileBody url f) }) := by
  simp [gitHubRespond, h]

/-- `getFile` against the modelled server, absent file. -/
theorem getFile_srv_absent (api : GitHubAPI) (sv : SrvState) (path : String)
    (h : srvLookup sv (apiBaseUrl ++ contentsEndpoint api path) = none) :
    GitHubAPI.getFile api gitHubRespond path sv =
      (.ok none, sv, [⟨apiBaseUrl ++ contentsEndpoint api path, .GET, none⟩]) :=
  getFile_404 SrvState gitHubRespond sv sv api path resp404
    (gitHubRespond_get_absent sv _ h) rfl

/-- `getFile` against the modelled server, present and decodable file. -/
theorem getFile_srv_present (api : GitHubAPI) (sv : SrvState) (path : String)
    (f : SrvFile) (content : String)
    (h : srvLookup sv (apiBaseUrl ++ contentsEndpoint api path) = some f)
    (hd : atobE f.content64 = .ok content) :
    GitHubAPI.getFile api gitHubRespond path sv =
      (.ok (some ⟨content, f.sha, apiBaseUrl ++ contentsEndpoint api path⟩), sv,
        [⟨apiBaseUrl ++ contentsEndpoint api path, .GET, none⟩]) := by
  apply getFile_ok SrvState gitHubRespond sv sv api path
    { status := 200, statusText := "OK",
      body := some (fileBody (apiBaseUrl ++ contentsEndpoint api path) f) }
    (fileBody (apiBaseUrl ++ contentsEndpoint api path) f)
    f.content64 f.sha (apiBaseUrl ++ contentsEndpoint api path) content
    (gitHubRespond_get_present sv _ f h) rfl (by simp) rfl
  · simp [fileBody, jStr, jGet, List.find?]
  · simp [fileBody, jStr, jGet, List.find?]
  · simp [fileBody, jStr, jGet, List.find?]
  · exact hd

/-- The modelled server accepts a sha-less PUT for an absent path and stores
the sent base64 under a fresh sha. -/
theorem gitHubRespond_put_new (sv : SrvState) (url m c64 : String)
    (h : srvLookup sv url = none) :
    gitHubRespond sv ⟨url, .PUT,
        some (.obj [("message", .str m), ("content", .str c64), ("branch", .str "main")])⟩ =
      (srvStore sv url ⟨c64, sv.ctr⟩,
        { status := 201, statusText := "Created", body := some (.obj [("ok", .bool true)]) }) := by
  simp [gitHubRespond, h, jStr, jGet, jHas, List.find?]

/-- The modelled server accepts a PUT carrying the current sha for an
existing path and stores the new base64 under a fresh sha. -/
theorem gitHubRespond_put_update (sv : SrvState) (url m c64 : String) (f : SrvFile)
    (h : srvLookup sv url = some f) :
    gitHubRespond sv ⟨url, .PUT,
        some (.obj [("message", .str m), ("content", .str c64), ("branch", .str "main"),
          ("sha", .str f.sha)])⟩ =
      (srvStore sv url ⟨c64, sv.ctr⟩,
        { status := 200, statusText := "OK", body := some (.obj [("ok", .bool true)]) }) := by
  simp [gitHubRespond, h, jStr, jGet, jHas, List.find?]

/-- `saveFile` on an absent path (remote GET answers 404): the log is the
GET followed by a PUT whose payload has no `sha` field at all. -/
theorem saveFile_log_new (σ : Type) (respond : Responder σ) (s s1 : σ)
    (api : GitHubAPI) (path message : String) (resp : FetchResp)
    (newContent : String)
    (hr : respond s ⟨apiBaseUrl ++ contentsEndpoint api path, .GET, none⟩ = (s1, resp))
    (hst : resp.status = 404)
    (hbt : latin1 newContent = true) :
    (GitHubAPI.saveFile api respond path newContent message s).2.2 =
      [⟨apiBaseUrl ++ contentsEndpoint api path, .GET, none⟩,
       ⟨apiBaseUrl ++ contentsEndpoint api path, .PUT,
        some (.obj [("message", .str message),
          ("content", .str (String.mk (encB (newContent.data.map Char.toNat)))),
          ("branch", .str "main")])⟩] := by
  unfold GitHubAPI.saveFile seqE
  rw [getFile_404 σ respond s s1 api path resp hr hst]
  simp only [Option.map_none', btoaE_ok newContent hbt]
  have hl := makeRequest_log σ api respond (contentsEndpoint api path) .PUT
    (some (.obj [("message", .str message),
      ("content", .str (String.mk (encB (newContent.data.map Char.toNat)))),
      ("branch", .str "main")])) s1
  simp only [Option.isSome_some, true_and, or_true, true_or, reduceIte] at hl
  simpa using hl

/-- `saveFile` against the modelled server, absent path: create succeeds and
stores the base64 of the new content. -/
theorem saveFile_srv_new (api : GitHubAPI) (sv : SrvState) (path nc message : String)
    (h : srvLookup sv (apiBaseUrl ++ contentsEndpoint api path) = none)
    (hbt : latin1 nc = true) :
    GitHubAPI.saveFile api gitHubRespond path nc message sv =
      (.ok (.obj [("ok", .bool true)]),
        srvStore sv (apiBaseUrl ++ contentsEndpoint api path)
          ⟨String.mk (encB (nc.data.map Char.toNat)), sv.ctr⟩,
        [⟨apiBaseUrl ++ contentsEndpoint api path, .GET, none⟩,
         ⟨apiBaseUrl ++ contentsEndpoint api path, .PUT,
          some (.obj [("message", .str message),
            ("content", .str (String.mk (encB (nc.data.map Char.toNat)))),
            ("branch", .str "main")])⟩]) := by
  unfold GitHubAPI.saveFile seqE
  rw [getFile_srv_absent api sv path h]
  simp only [Option.map_none', btoaE_ok nc hbt]
  unfold makeRequest
  simp only [Option.isSome_some, true_and, or_true, true_or, reduceIte]
  rw [gitHubRespond_put_new sv _ message _ h]
  simp [FetchResp.okb]

/-- A stored file's content-hash token is never the empty string, so the
source's `if (sha)` truthiness check always attaches it. -/
theorem srvSha_truthy (f : SrvFile) : strT ( SrvFile.sha f) = true := by
  simp only [strT, SrvFile.sha, decide_eq_true_eq]
  intro h
  have hd := congrArg String.data h
  rw [data_append] at hd
  simp at hd

/-- `saveFile` against the modelled server, existing decodable path: the
update carries the discovered sha and succeeds. -/
theorem saveFile_srv_update (api : GitHubAPI) (sv : SrvState) (path nc message : String)
    (f : SrvFile) (content : String)
    (h : srvLookup sv (apiBaseUrl ++ contentsEndpoint api path) = some f)
    (hd : atobE f.content64 = .ok content)
    (hbt : latin1 nc = true) :
    GitHubAPI.saveFile api gitHubRespond path nc message sv =
      (.ok (.obj [("ok", .bool true)]),
        srvStore sv (apiBaseUrl ++ contentsEndpoint api path)
          ⟨String.mk (encB (nc.data.map Char.toNat)), sv.ctr⟩,
        [⟨apiBaseUrl ++ contentsEndpoint api path, .GET, none⟩,
         ⟨apiBaseUrl ++ contentsEndpoint api path, .PUT,
          some (.obj [("message", .str message),
            ("content", .str (String.mk (encB (nc.data.map Char.toNat)))),
            ("branch", .str "main"), ("sha", .str f.sha)])⟩]) := by
  have hst : strT f.sha = true := srvSha_truthy f
  unfold GitHubAPI.saveFile seqE
  rw [getFile_srv_present api sv path f content h hd]
  simp only [Option.map_some', btoaE_ok nc hbt, hst, if_true, reduceIte]
  simp only [List.cons_append, List.nil_append]
  unfold makeRequest
  simp only [Option.isSome_some, true_and, or_true, true_or, reduceIte]
  rw [gitHubRespond_put_update sv _ message _ f h]
  simp [FetchResp.okb]

/-- `getDoc` against the modelled server: present, decodable, parseable
content comes back parsed. -/
theorem getDoc_srv_ok (api : GitHubAPI) (sv : SrvState) (path : String) (dflt : JVal)
    (f : SrvFile) (content : String) (v : JVal)
    (h : srvLookup sv (apiBaseUrl ++ contentsEndpoint api path) = some f)
    (hd : atobE f.content64 = .ok content)
    (hp : jparse content = .ok v) :
    GitHubAPI.getDoc api gitHubRespond path dflt sv =
      (.ok v, sv, [⟨apiBaseUrl ++ contentsEndpoint api path, .GET, none⟩]) := by
  unfold GitHubAPI.getDoc tryE seqE
  rw [getFile_srv_present api sv path f content h hd]
  simp only []
  rw [hp]
  simp [pureE]

/-- `getDoc` against the modelled server: present, decodable, but malformed
content falls back to the kind's default. -/
theorem getDoc_srv_malformed (api : GitHubAPI) (sv : SrvState) (path : String)
    (dflt : JVal) (f : SrvFile) (content : String) (e : Err)
    (h : srvLookup sv (apiBaseUrl ++ contentsEndpoint api path) = some f)
    (hd : atobE f.content64 = .ok content)
    (hp : jparse content = .error e) :
    GitHubAPI.getDoc api gitHubRespond path dflt sv =
      (.ok dflt, sv, [⟨apiBaseUrl ++ contentsEndpoint api path, .GET, none⟩]) := by
  unfold GitHubAPI.getDoc tryE seqE
  rw [getFile_srv_present api sv path f content h hd]
  simp only []
  rw [hp]
  simp [pureE, throwE]

/-- `getDoc` against the modelled server: absent path gives the default. -/
theorem getDoc_srv_absent (api : GitHubAPI) (sv : SrvState) (path : String)
    (dflt : JVal)
    (h : srvLookup sv (apiBaseUrl ++ contentsEndpoint api path) = none) :
    GitHubAPI.getDoc api gitHubRespond path dflt sv =
      (.ok dflt, sv, [⟨apiBaseUrl ++ contentsEndpoint api path, .GET, none⟩]) := by
  unfold GitHubAPI.getDoc tryE seqE
  rw [getFile_srv_absent api sv path h]
  simp [pureE]

/-- The remote save/get round trip against the modelled server: saving a
number-free Latin-1-serializable value and reading it back returns the value
itself, from any server state whose file at that path (if any) is decodable. -/
theorem remote_roundtrip (api : GitHubAPI) (sv : SrvState) (path message : String)
    (dflt v : JVal)
    (hn : noNum v = true) (hlat : latin1 (jstringify v) = true)
    (hwf : ∀ f, srvLookup sv (apiBaseUrl ++ contentsEndpoint api path) = some f →
      ∃ c, atobE f.content64 = .ok c) :
    (GitHubAPI.saveDoc api gitHubRespond path v message sv).1 = .ok true ∧
    (GitHubAPI.getDoc api gitHubRespond path dflt
      ((GitHubAPI.saveDoc api gitHubRespond path v message sv).2.1)).1 = .ok v := by
  cases hsv : srvLookup sv (apiBaseUrl ++ contentsEndpoint api path) with
  | none =>
    have hs := saveFile_srv_new api sv path (jstringify v) message hsv hlat
    have hsd : GitHubAPI.saveDoc api gitHubRespond path v message sv =
        (.ok true,
          srvStore sv (apiBaseUrl ++ contentsEndpoint api path)
            ⟨String.mk (encB ((jstringify v).data.map Char.toNat)), sv.ctr⟩,
          [⟨apiBaseUrl ++ contentsEndpoint api path, .GET, none⟩,
           ⟨apiBaseUrl ++ contentsEndpoint api path, .PUT,
            some (.obj [("message", .str message),
              ("content", .str (String.mk (encB ((jstringify v).data.map Char.toNat)))),
              ("branch", .str "main")])⟩]) := by
      unfold GitHubAPI.saveDoc tryE seqE
      rw [hs]
      simp [pureE]
    rw [hsd]
    refine ⟨rfl, ?_⟩
    rw [getDoc_srv_ok api _ path dflt
      ⟨String.mk (encB ((jstringify v).data.map Char.toNat)), sv.ctr⟩
      (jstringify v) v (srvLookup_store_self sv _ _) (atobE_btoaE _ hlat)
      (jparse_jstringify v hn)]
  | some f =>
    obtain ⟨c, hc⟩ := hwf f hsv
    have hs := saveFile_srv_update api sv path (jstringify v) message f c hsv hc hlat
    have hsd : GitHubAPI.saveDoc api gitHubRespond path v message sv =
        (.ok true,
          srvStore sv (apiBaseUrl ++ contentsEndpoint api path)
            ⟨String.mk (encB ((jstringify v).data.map Char.toNat)), sv.ctr⟩,
          [⟨apiBaseUrl ++ contentsEndpoint api path, .GET, none⟩,
           ⟨apiBaseUrl ++ contentsEndpoint api path, .PUT,
            some (.obj [("message", .str message),
              ("content", .str (String.mk (encB ((jstringify v).data.map Char.toNat)))),
              ("branch", .str "main"), ("sha", .str f.sha)])⟩]) := by
      unfold GitHubAPI.saveDoc tryE seqE
      rw [hs]
      simp [pureE]
    rw [hsd]
    refine ⟨rfl, ?_⟩
    rw [getDoc_srv_ok api _ path dflt
      ⟨String.mk (encB ((jstringify v).data.map Char.toNat)), sv.ctr⟩
      (jstringify v) v (srvLookup_store_self sv _ _) (atobE_btoaE _ hlat)
      (jparse_jstringify v hn)]

/-! ## The `DataManager` dispatch layer -/

/-- `_ensureInitialized` is a no-op on an initialized instance. -/
theorem ensureInit_noop (σ : Type) (cfg : Option GHConfig) (respond : Responder σ)
    (w : World σ) (h : w.dm.isInitialized = true) :
    DataManager.ensureInitialized cfg respond w = (.ok (), w, []) := by
  unfold DataManager.ensureInitialized
  simp [h]

/-- Sequencing after a no-op `_ensureInitialized` is the body itself. -/
theorem seqE_ensure (σ : Type) (cfg : Option GHConfig) (respond : Responder σ)
    (w : World σ) (h : w.dm.isInitialized = true) (f : Unit → StE (World σ) α) :
    seqE ( DataManager.ensureInitialized cfg respond) f w = f () w := by
  unfold seqE
  rw [ensureInit_noop σ cfg respond w h]
  rcases hf : f () w with ⟨r, w2, l2⟩
  simp [hf]

theorem liftGh_fst (m : StE σ α) (w : World σ) : (liftGh m w).1 = (m w.srv).1 := by
  unfold liftGh
  rcases m w.srv with ⟨r, s1, l⟩
  rfl

theorem liftGh_state (m : StE σ α) (w : World σ) :
    (liftGh m w).2.1 = { w with srv := (m w.srv).2.1 } := by
  unfold liftGh
  rcases m w.srv with ⟨r, s1, l⟩
  rfl

theorem dm_getNewsItems_gh (σ : Type) (cfg : Option GHConfig) (respond : Responder σ)
    (now : Nat) (w : World σ) (api : GitHubAPI)
    (hi : w.dm.isInitialized = true) (hg : w.dm.useGitHub = true)
    (ha : w.dm.githubApi = some api) :
    DataManager.getNewsItems cfg respond now w =
      liftGh ( GitHubAPI.getNewsItems api respond) w := by
  unfold DataManager.getNewsItems
  rw [seqE_ensure σ cfg respond w hi]
  simp [hg, ha]

theorem dm_saveNewsItems_gh (σ : Type) (cfg : Option GHConfig) (respond : Responder σ)
    (v : JVal) (w : World σ) (api : GitHubAPI)
    (hi : w.dm.isInitialized = true) (hg : w.dm.useGitHub = true)
    (ha : w.dm.githubApi = some api) :
    DataManager.saveNewsItems cfg respond v w =
      liftGh ( GitHubAPI.saveNewsItems api respond v) w := by
  unfold DataManager.saveNewsItems
  rw [seqE_ensure σ cfg respond w hi]
  simp [hg, ha]

theorem dm_getSiteSettings_gh (σ : Type) (cfg : Option GHConfig) (respond : Responder σ)
    (w : World σ) (api : GitHubAPI)
    (hi : w.dm.isInitialized = true) (hg : w.dm.useGitHub = true)
    (ha : w.dm.githubApi = some api) :
    DataManager.getSiteSettings cfg respond w =
      liftGh ( GitHubAPI.getSiteSettings api respond) w := by
  unfold DataManager.getSiteSettings
  rw [seqE_ensure σ cfg respond w hi]
  simp [hg, ha]

theorem dm_saveSiteSettings_gh (σ : Type) (cfg : Option GHConfig) (respond : Responder σ)
    (v : JVal) (w : World σ) (api : GitHubAPI)
    (hi : w.dm.isInitialized = true) (hg : w.dm.useGitHub = true)
    (ha : w.dm.githubApi = some api) :
    DataManager.saveSiteSettings cfg respond v w =
      liftGh ( GitHubAPI.saveSiteSettings api respond v) w := by
  unfold DataManager.saveSiteSettings
  rw [seqE_ensure σ cfg respond w hi]
  simp [hg, ha]

theorem dm_getSocialLinks_gh (σ : Type) (cfg : Option GHConfig) (respond : Responder σ)
    (w : World σ) (api : GitHubAPI)
    (hi : w.dm.isInitialized = true) (hg : w.dm.useGitHub = true)
    (ha : w.dm.githubApi = some api) :
    DataManager.getSocialLinks cfg respond w =
      liftGh ( GitHubAPI.getSocialLinks api respond) w := by
  unfold DataManager.getSocialLinks
  rw [seqE_ensure σ cfg respond w hi]
  simp [hg, ha]

theorem dm_saveSocialLinks_gh (σ : Type) (cfg : Option GHConfig) (respond : Responder σ)
    (v : JVal) (w : World σ) (api : GitHubAPI)
    (hi : w.dm.isInitialized = true) (hg : w.dm.useGitHub = true)
    (ha : w.dm.githubApi = some api) :
    DataManager.saveSocialLinks cfg respond v w =
      liftGh ( GitHubAPI.saveSocialLinks api respond v) w := by
  unfold DataManager.saveSocialLinks
  rw [seqE_ensure σ cfg respond w hi]
  simp [hg, ha]

theorem dm_getAdminSettings_gh (σ : Type) (cfg : Option GHConfig) (respond : Responder σ)
    (w : World σ) (api : GitHubAPI)
    (hi : w.dm.isInitialized = true) (hg : w.dm.useGitHub = true)
    (ha : w.dm.githubApi = some api) :
    DataManager.getAdminSettings cfg respond w =
      liftGh ( GitHubAPI.getAdminSettings api respond) w := by
  unfold DataManager.getAdminSettings
  rw [seqE_ensure σ cfg respond w hi]
  simp [hg, ha]

theorem dm_saveAdminSettings_gh (σ : Type) (cfg : Option GHConfig) (respond : Responder σ)
    (v : JVal) (w : World σ) (api : GitHubAPI)
    (hi : w.dm.isInitialized = true) (hg : w.dm.useGitHub = true)
    (ha : w.dm.githubApi = some api) :
    DataManager.saveAdminSettings cfg respond v w =
      liftGh ( GitHubAPI.saveAdminSettings api respond v) w := by
  unfold DataManager.saveAdminSettings
  rw [seqE_ensure σ cfg respond w hi]
  simp [hg, ha]

/-- Local `getNewsItems`, stored collection parses truthy: returned as is,
state untouched. -/
theorem dm_getNewsItems_local_parsed (σ : Type) (cfg : Option GHConfig)
    (respond : Responder σ) (now : Nat) (w : World σ) (nv : JVal)
    (hi : w.dm.isInitialized = true) (hl : w.dm.useGitHub = false)
    (hp : jparseOpt (lsGet w.ls "jjkNews") = .ok nv) (ht : truthy nv = true) :
    DataManager.getNewsItems cfg respond now w = (.ok nv, w, []) := by
  unfold DataManager.getNewsItems
  rw [seqE_ensure σ cfg respond w hi]
  simp [hl, hp, ht]

/-- Local `getNewsItems`, stored collection absent or parsed falsy: the
sample data for the current clock, state untouched. -/
theorem dm_getNewsItems_local_falsy (σ : Type) (cfg : Option GHConfig)
    (respond : Responder σ) (now : Nat) (w : World σ) (nv : JVal)
    (hi : w.dm.isInitialized = true) (hl : w.dm.useGitHub = false)
    (hp : jparseOpt (lsGet w.ls "jjkNews") = .ok nv) (ht : truthy nv = false) :
    DataManager.getNewsItems cfg respond now w =
      (.ok (createSampleNewsData now), w, []) := by
  unfold DataManager.getNewsItems
  rw [seqE_ensure σ cfg respond w hi]
  simp [hl, hp, ht]

/-- Local `getNewsItems`, stored string malformed: `JSON.parse` throws and
the error escapes to the caller, state untouched. -/
theorem dm_getNewsItems_local_malformed (σ : Type) (cfg : Option GHConfig)
    (respond : Responder σ) (now : Nat) (w : World σ) (e : Err)
    (hi : w.dm.isInitialized = true) (hl : w.dm.useGitHub = false)
    (hp : jparseOpt (lsGet w.ls "jjkNews") = .error e) :
    DataManager.getNewsItems cfg respond now w = (.error e, w, []) := by
  unfold DataManager.getNewsItems
  rw [seqE_ensure σ cfg respond w hi]
  simp [hl, hp]

/-- Local `saveNewsItems` writes the JSON text under `jjkNews`. -/
theorem dm_saveNewsItems_local (σ : Type) (cfg : Option GHConfig)
    (respond : Responder σ) (v : JVal) (w : World σ)
    (hi : w.dm.isInitialized = true) (hl : w.dm.useGitHub = false) :
    DataManager.saveNewsItems cfg respond v w =
      (.ok true, { w with ls := lsSet w.ls "jjkNews" (jstringify v) }, []) := by
  unfold DataManager.saveNewsItems
  rw [seqE_ensure σ cfg respond w hi]
  simp [hl]

/-- Local `getSiteSettings` rebuilds the object from the two keys with
defaults, state untouched. -/
theorem dm_getSiteSettings_local (σ : Type) (cfg : Option GHConfig)
    (respond : Responder σ) (w : World σ)
    (hi : w.dm.isInitialized = true) (hl : w.dm.useGitHub = false) :
    DataManager.getSiteSettings cfg respond w =
      (.ok (.obj [("siteTitle", .str (strOrD (lsGet w.ls "jjkSiteTitle") "NOARZ")),
        ("newsHeader", .str (strOrD (lsGet w.ls "jjkNewsHeader") "📰MESSAGE📣"))]),
        w, []) := by
  unfold DataManager.getSiteSettings
  rw [seqE_ensure σ cfg respond w hi]
  simp [hl]

/-- Local `saveSiteSettings` writes the two coerced fields. -/
theorem dm_saveSiteSettings_local (σ : Type) (cfg : Option GHConfig)
    (respond : Responder σ) (v : JVal) (w : World σ)
    (hi : w.dm.isInitialized = true) (hl : w.dm.useGitHub = false) :
    DataManager.saveSiteSettings cfg respond v w =
      (.ok true,
        { w with
          ls := lsSet (lsSet w.ls "jjkSiteTitle"
            (match jGet v "siteTitle" with
             | some x => jsToStr x
             | none => "undefined")) "jjkNewsHeader"
            (match jGet v "newsHeader" with
             | some x => jsToStr x
             | none => "undefined") }, []) := by
  unfold DataManager.saveSiteSettings
  rw [seqE_ensure σ cfg respond w hi]
  simp [hl]

/-- Local `getSocialLinks`, stored value parses truthy. -/
theorem dm_getSocialLinks_local_parsed (σ : Type) (cfg : Option GHConfig)
    (respond : Responder σ) (w : World σ) (sv : JVal)
    (hi : w.dm.isInitialized = true) (hl : w.dm.useGitHub = false)
    (hp : jparseOpt (lsGet w.ls "jjkSocialLinks") = .ok sv) (ht : truthy sv = true) :
    DataManager.getSocialLinks cfg respond w = (.ok sv, w, []) := by
  unfold DataManager.getSocialLinks
  rw [seqE_ensure σ cfg respond w hi]
  simp [hl, hp, ht]

/-- Local `getSocialLinks`, absent or falsy: the built-in default. -/
theorem dm_getSocialLinks_local_falsy (σ : Type) (cfg : Option GHConfig)
    (respond : Responder σ) (w : World σ) (sv : JVal)
    (hi : w.dm.isInitialized = true) (hl : w.dm.useGitHub = false)
    (hp : jparseOpt (lsGet w.ls "jjkSocialLinks") = .ok sv) (ht : truthy sv = false) :
    DataManager.getSocialLinks cfg respond w = (.ok socialDefault, w, []) := by
  unfold DataManager.getSocialLinks
  rw [seqE_ensure σ cfg respond w hi]
  simp [hl, hp, ht]

/-- Local `getSocialLinks`, malformed stored string: the parse error
escapes. -/
theorem dm_getSocialLinks_local_malformed (σ : Type) (cfg : Option GHConfig)
    (respond : Responder σ) (w : World σ) (e : Err)
    (hi : w.dm.isInitialized = true) (hl : w.dm.useGitHub = false)
    (hp : jparseOpt (lsGet w.ls "jjkSocialLinks") = .error e) :
    DataManager.getSocialLinks cfg respond w = (.error e, w, []) := by
  unfold DataManager.getSocialLinks
  rw [seqE_ensure σ cfg respond w hi]
  simp [hl, hp]

/-- Local `saveSocialLinks`. -/
theorem dm_saveSocialLinks_local (σ : Type) (cfg : Option GHConfig)
    (respond : Responder σ) (v : JVal) (w : World σ)
    (hi : w.dm.isInitialized = true) (hl : w.dm.useGitHub = false) :
    DataManager.saveSocialLinks cfg respond v w =
      (.ok true, { w with ls := lsSet w.ls "jjkSocialLinks" (jstringify v) }, []) := by
  unfold DataManager.saveSocialLinks
  rw [seqE_ensure σ cfg respond w hi]
  simp [hl]

/-- Local `getAdminSettings`. -/
theorem dm_getAdminSettings_local (σ : Type) (cfg : Option GHConfig)
    (respond : Responder σ) (w : World σ)
    (hi : w.dm.isInitialized = true) (hl : w.dm.useGitHub = false) :
    DataManager.getAdminSettings cfg respond w =
      (.ok (.obj [("adminCode", .str (strOrD (lsGet w.ls "jjkAdminCode") "0988131688"))]),
        w, []) := by
  unfold DataManager.getAdminSettings
  rw [seqE_ensure σ cfg respond w hi]
  simp [hl]

/-- Local `saveAdminSettings`. -/
theorem dm_saveAdminSettings_local (σ : Type) (cfg : Option GHConfig)
    (respond : Responder σ) (v : JVal) (w : World σ)
    (hi : w.dm.isInitialized = true) (hl : w.dm.useGitHub = false) :
    DataManager.saveAdminSettings cfg respond v w =
      (.ok true,
        { w with
          ls := lsSet w.ls "jjkAdminCode"
            (match jGet v "adminCode" with
             | some x => jsToStr x
             | none => "undefined") }, []) := by
  unfold DataManager.saveAdminSettings
  rw [seqE_ensure σ cfg respond w hi]
  simp [hl]

/-! ## localStorage and parsing of stored strings -/

theorem lsGet_set_self (ls : LocalStorage) (k v : String) :
    lsGet (lsSet ls k v) k = some v := by
  simp [lsGet, lsSet, List.find?]

theorem lsGet_set_ne (ls : LocalStorage) (k k2 v : String) (h : ¬ k2 = k) :
    lsGet (lsSet ls k v) k2 = lsGet ls k2 := by
  have h2 : ¬ k = k2 := fun he => h he.symm
  simp [lsGet, lsSet, List.find?, h2]

theorem jparseOpt_none : jparseOpt none = .ok .null := rfl

theorem jparseOpt_some (s : String) : jparseOpt (some s) = jparse s := rfl

/-! ## Invariant of the interleaved initialization model -/

/-- The reachable-state invariant of `istep`: before the first call nothing
has happened; afterwards the shared promise is promise `0`, at most one
probe has started, and every caller got promise `0`. -/
def IInv (s : IState) : Prop :=
  (s.initPromise = none → s.probeStarts = 0 ∧ s.promiseCtr = 0 ∧ s.returns = []) ∧
  (s.initPromise = some 0 ∨ s.initPromise = none) ∧
  s.probeStarts ≤ 1 ∧
  (∀ p ∈ s.returns, p = 0)

theorem iInit_inv : IInv iInit := by
  refine ⟨fun _ => ⟨rfl, rfl, rfl⟩, Or.inr rfl, by simp [iInit], ?_⟩
  intro p hp
  simp [iInit] at hp

theorem istep_call_memo (cfg : Option GHConfig) (s : IState) (p : Nat)
    (h : s.initPromise = some p) :
    istep cfg s .callInit = { s with returns := s.returns ++ [p] } := by
  unfold istep
  rw [h]

theorem istep_call_probe (cfg : Option GHConfig) (s : IState)
    (h : s.initPromise = none) (hc : cfgComplete cfg = true) :
    istep cfg s .callInit =
      { s with
        initPromise := some s.promiseCtr, promiseCtr := s.promiseCtr + 1,
        pendingProbe := true, probeStarts := s.probeStarts + 1,
        returns := s.returns ++ [s.promiseCtr] } := by
  unfold istep
  rw [h]
  simp [hc]

theorem istep_call_local (cfg : Option GHConfig) (s : IState)
    (h : s.initPromise = none) (hc : cfgComplete cfg = false) :
    istep cfg s .callInit =
      { s with
        initPromise := some s.promiseCtr, promiseCtr := s.promiseCtr + 1,
        isInitialized := true, useGitHub := false,
        returns := s.returns ++ [s.promiseCtr] } := by
  unfold istep
  rw [h]
  simp [hc]

theorem istep_inv (cfg : Option GHConfig) (s : IState) (e : IEvent) (h : IInv s) :
    IInv (istep cfg s e) := by
  obtain ⟨hnone, hzero, hle, hret⟩ := h
  cases e with
  | callInit =>
    cases hip : s.initPromise with
    | some p =>
      have hp0 : p = 0 := by
        have hz := hzero
        simp [hip] at hz
        exact hz
      subst hp0
      rw [istep_call_memo cfg s 0 hip]
      refine ⟨?_, ?_, ?_, ?_⟩
      · intro hq
        simp only [] at hq
        rw [hip] at hq
        exact absurd hq (by simp)
      · simp [hip]
      · simpa using hle
      · intro q hq
        simp only [List.mem_append, List.mem_singleton] at hq
        rcases hq with hq | hq
        · exact hret q hq
        · exact hq
    | none =>
      obtain ⟨hps, hctr, hrs⟩ := hnone hip
      by_cases hc : cfgComplete cfg = true
      · rw [istep_call_probe cfg s hip hc]
        refine ⟨?_, ?_, ?_, ?_⟩
        · intro hq
          simp at hq
        · simp [hctr]
        · simp [hps]
        · intro q hq
          simp [hrs, hctr] at hq
          omega
      · rw [istep_call_local cfg s hip (by simpa using hc)]
        refine ⟨?_, ?_, ?_, ?_⟩
        · intro hq
          simp at hq
        · simp [hctr]
        · simpa using hle
        · intro q hq
          simp [hrs, hctr] at hq
          omega
  | probeSettles ok =>
    unfold istep
    by_cases hp : s.pendingProbe = true
    · simp only [hp, if_true, reduceIte]
      exact ⟨fun hq => hnone hq, hzero, hle, hret⟩
    · simp only [hp, Bool.false_eq_true, if_false, reduceIte]
      exact ⟨hnone, hzero, hle, hret⟩

theorem irun_inv (cfg : Option GHConfig) (es : List IEvent) : IInv (irun cfg es) := by
  unfold irun
  have hgen : ∀ (l : List IEvent) (s : IState), IInv s → IInv (l.foldl (istep cfg) s) := by
    intro l
    induction l with
    | nil => intro s hs; exact hs
    | cons e es ih =>
      intro s hs
      exact ih (istep cfg s e) (istep_inv cfg s e hs)
  exact hgen es iInit iInit_inv

/-! ## The claims -/

/-- C9: For every sequence of accessor calls on a single `DataManager`
instance — any schedule of `initialize` invocations (direct or through
`_ensureInitialized`) interleaved with the probe settling — at most one
initialization attempt (one backend probe) ever starts, and every call to
`initialize` made while an initialization is pending or completed returns
the same shared promise (promise 0), so all callers observe the same
selected backend. -/
theorem C9_single_shared_init (cfg : Option GHConfig) (es : List IEvent) :
    (irun cfg es).probeStarts ≤ 1 ∧ ∀ p ∈ (irun cfg es).returns, p = 0 := by
  have h := irun_inv cfg es
  exact ⟨h.2.2.1, h.2.2.2⟩

/-- C4: For every path the remote reports not-found (status 404) for,
`deleteFile` fails with the not-found error and the request log of the call
contains no DELETE request at all. -/
theorem C4_delete_nonexistent (σ : Type) (respond : Responder σ) (s s1 : σ)
    (api : GitHubAPI) (path message : String) (resp : FetchResp)
    (hr : respond s ⟨apiBaseUrl ++ contentsEndpoint api path, .GET, none⟩ = (s1, resp))
    (hst : resp.status = 404) :
    ( GitHubAPI.deleteFile api respond path message s).1
      = .error ⟨"File not found: " ++ path⟩ ∧
    ∀ r ∈ ( GitHubAPI.deleteFile api respond path message s).2.2,
      ¬ r.method = .DELETE := by
  rw [deleteFile_absent σ respond s s1 api path message resp hr hst]
  refine ⟨rfl, ?_⟩
  intro r hrm
  simp only [List.mem_singleton] at hrm
  rw [hrm]
  simp

/-- Witness for C4 at a concrete server that reports 404. -/
theorem C4_witness :
    ( GitHubAPI.deleteFile ⟨"t", some "u", some "r"⟩
        (fun (s : Unit) (q : HRequest) => (s, resp404)) "news.json" "msg" ()).1
      = .error ⟨"File not found: " ++ "news.json"⟩ ∧
    ∀ r ∈ ( GitHubAPI.deleteFile ⟨"t", some "u", some "r"⟩
        (fun (s : Unit) (q : HRequest) => (s, resp404)) "news.json" "msg" ()).2.2,
      ¬ r.method = .DELETE :=
  C4_delete_nonexistent Unit (fun s q => (s, resp404)) () () ⟨"t", some "u", some "r"⟩
    "news.json" "msg" resp404 rfl rfl

/-- C5 counterexample: the claim says every remote failure other than
not-found propagates to the caller; but `getFile` classifies not-found by
searching the error message for the substring `'404'`, so a 500 response
whose body happens to mention `404` is swallowed into `ok none` instead of
propagating. -/
theorem C5_counterexample :
    (¬ (500 = 404)) ∧
    ( GitHubAPI.getFile ⟨"t", some "u", some "r"⟩
        (fun (s : Unit) (q : HRequest) =>
          (s, ⟨500, "Internal Server Error",
            some (.obj [("message", .str "upstream 404 cache miss")])⟩))
        "news.json" ()).1 = .ok none := by
  refine ⟨by decide, ?_⟩
  rfl

/-- C5 amended: `getFile` returns `ok none` whenever the remote reports 404
(the fabricated error message then always contains `'404'`), and it
propagates the error for every other failure whose message does not contain
the substring `'404'`. -/
theorem C5_getFile_classification (σ : Type) (respond : Responder σ) (s s1 : σ)
    (api : GitHubAPI) (path : String) (resp : FetchResp)
    (hr : respond s ⟨apiBaseUrl ++ contentsEndpoint api path, .GET, none⟩ = (s1, resp)) :
    (resp.status = 404 →
      GitHubAPI.getFile api respond path s =
        (.ok none, s1, [⟨apiBaseUrl ++ contentsEndpoint api path, .GET, none⟩])) ∧
    (resp.okb = false → strIncludes (httpErrMsg resp) "404" = false →
      GitHubAPI.getFile api respond path s =
        (.error ⟨httpErrMsg resp⟩, s1,
          [⟨apiBaseUrl ++ contentsEndpoint api path, .GET, none⟩])) := by
  constructor
  · intro hst
    exact getFile_404 σ respond s s1 api path resp hr hst
  · intro hok hni
    exact getFile_propagates σ respond s s1 api path resp hr hok hni

/-- Witness for the amended C5: a concrete 404 remote yields `ok none`, and
a concrete 500 remote (message free of `'404'`) propagates. -/
theorem C5_witness :
    GitHubAPI.getFile ⟨"t", some "u", some "r"⟩
        (fun (s : Unit) (q : HRequest) => (s, resp404)) "news.json" ()
      = (.ok none, (),
        [⟨apiBaseUrl ++ contentsEndpoint ⟨"t", some "u", some "r"⟩ "news.json",
          .GET, none⟩]) ∧
    GitHubAPI.getFile ⟨"t", some "u", some "r"⟩
        (fun (s : Unit) (q : HRequest) =>
          (s, ⟨500, "Internal Server Error", some (.obj [("message", .str "boom")])⟩))
        "news.json" ()
      = (.error ⟨httpErrMsg ⟨500, "Internal Server Error",
            some (.obj [("message", .str "boom")])⟩⟩, (),
        [⟨apiBaseUrl ++ contentsEndpoint ⟨"t", some "u", some "r"⟩ "news.json",
          .GET, none⟩]) :=
  ⟨( C5_getFile_classification Unit (fun s q => (s, resp404)) () ()
      ⟨"t", some "u", some "r"⟩ "news.json" resp404 rfl).1 rfl,
   ( C5_getFile_classification Unit
      (fun s q => (s, ⟨500, "Internal Server Error",
        some (.obj [("message", .str "boom")])⟩)) () ()
      ⟨"t", some "u", some "r"⟩ "news.json"
      ⟨500, "Internal Server Error", some (.obj [("message", .str "boom")])⟩ rfl).2
      (by decide) (by decide)⟩

/-- C6: `saveFile` first fetches the path; when the file exists — its
fetched content-hash token being, as always for a real token, a nonempty
string, which is what the source's `if (sha)` truthiness check tests — the
write request it then issues carries that just-fetched sha in its payload,
and when the remote reports 404 the write request's payload has no sha
field. -/
theorem C6_saveFile_sha (σ : Type) (respond : Responder σ) (s s1 : σ)
    (api : GitHubAPI) (path message newContent : String) (resp : FetchResp)
    (hr : respond s ⟨apiBaseUrl ++ contentsEndpoint api path, .GET, none⟩ = (s1, resp))
    (hbt : latin1 newContent = true) :
    (∀ bj c64 sh p content, resp.okb = true → ¬ resp.status = 204 →
      resp.body = some bj → jStr bj "content" = some c64 → jStr bj "sha" = some sh →
      ¬ sh = "" → jStr bj "path" = some p → atobE c64 = .ok content →
      ( GitHubAPI.saveFile api respond path newContent message s).2.2 =
        [⟨apiBaseUrl ++ contentsEndpoint api path, .GET, none⟩,
         ⟨apiBaseUrl ++ contentsEndpoint api path, .PUT,
          some (.obj [("message", .str message),
            ("content", .str (String.mk (encB (newContent.data.map Char.toNat)))),
            ("branch", .str "main"), ("sha", .str sh)])⟩]) ∧
    (resp.status = 404 →
      ( GitHubAPI.saveFile api respond path newContent message s).2.2 =
        [⟨apiBaseUrl ++ contentsEndpoint api path, .GET, none⟩,
         ⟨apiBaseUrl ++ contentsEndpoint api path, .PUT,
          some (.obj [("message", .str message),
            ("content", .str (String.mk (encB (newContent.data.map Char.toNat)))),
            ("branch", .str "main")])⟩]) := by
  constructor
  · intro bj c64 sh p content hok h204 hbody hc hsha hsh hp hato
    exact saveFile_log_existing σ respond s s1 api path message resp bj c64 sh p
      content newContent hr hok h204 hbody hc hsha hsh hp hato hbt
  · intro hst
    exact saveFile_log_new σ respond s s1 api path message resp newContent hr hst hbt

/-- Witness for C6: concrete existing-file and absent-file servers. -/
theorem C6_witness :
    ( GitHubAPI.saveFile ⟨"t", some "u", some "r"⟩
        (fun (s : Unit) (q : HRequest) =>
          (s, ⟨200, "OK", some (.obj [("content", .str "eA=="), ("sha", .str "abc"),
            ("path", .str "news.json")])⟩))
        "news.json" "[]" "msg" ()).2.2 =
      [⟨apiBaseUrl ++ contentsEndpoint ⟨"t", some "u", some "r"⟩ "news.json", .GET, none⟩,
       ⟨apiBaseUrl ++ contentsEndpoint ⟨"t", some "u", some "r"⟩ "news.json", .PUT,
        some (.obj [("message", .str "msg"),
          ("content", .str (String.mk (encB ("[]".data.map Char.toNat)))),
          ("branch", .str "main"), ("sha", .str "abc")])⟩] ∧
    ( GitHubAPI.saveFile ⟨"t", some "u", some "r"⟩
        (fun (s : Unit) (q : HRequest) => (s, resp404))
        "news.json" "[]" "msg" ()).2.2 =
      [⟨apiBaseUrl ++ contentsEndpoint ⟨"t", some "u", some "r"⟩ "news.json", .GET, none⟩,
       ⟨apiBaseUrl ++ contentsEndpoint ⟨"t", some "u", some "r"⟩ "news.json", .PUT,
        some (.obj [("message", .str "msg"),
          ("content", .str (String.mk (encB ("[]".data.map Char.toNat)))),
          ("branch", .str "main")])⟩] :=
  ⟨( C6_saveFile_sha Unit
      (fun s q => (s, ⟨200, "OK", some (.obj [("content", .str "eA=="),
        ("sha", .str "abc"), ("path", .str "news.json")])⟩)) () ()
      ⟨"t", some "u", some "r"⟩ "news.json" "msg" "[]"
      ⟨200, "OK", some (.obj [("content", .str "eA=="), ("sha", .str "abc"),
        ("path", .str "news.json")])⟩ rfl (by decide)).1
      (.obj [("content", .str "eA=="), ("sha", .str "abc"), ("path", .str "news.json")])
      "eA==" "abc" "news.json" "x" (by decide) (by decide) rfl (by decide) (by decide)
      (by decide) (by decide) (by decide),
   ( C6_saveFile_sha Unit (fun s q => (s, resp404)) () ()
      ⟨"t", some "u", some "r"⟩ "news.json" "msg" "[]" resp404 rfl (by decide)).2 rfl⟩

/-- C7: With a present configuration whose `enabled` flag is false, a fresh
`DataManager.initialize` selects the local backend, marks itself
initialized, leaves `githubApi` untouched (no `GitHubAPI` is constructed)
and issues no network request at all (empty request log). -/
theorem C7_disabled_no_network (σ : Type) (respond : Responder σ) (w : World σ)
    (c : GHConfig) (hfresh : w.dm.initDone = none) (he : c.enabled = false) :
    DataManager.initialize (some c) respond w =
      (.ok true,
        { w with dm := { w.dm with useGitHub := false, isInitialized := true, initDone := some true } },
        []) := by
  unfold DataManager.initialize
  rw [hfresh]
  simp [he]

/-- Witness for C7 on a fresh instance and a disabled concrete config. -/
theorem C7_witness :
    DataManager.initialize (some ⟨"u", "r", false, some "tok"⟩)
        (fun (s : Unit) (q : HRequest) => (s, resp404))
        ⟨(), [], dmNew⟩ =
      (.ok true,
        { srv := (), ls := [],
          dm := { githubApi := none, isInitialized := true, useGitHub := false,
                  initDone := some true } },
        []) := by
  have h := C7_disabled_no_network Unit (fun s q => (s, resp404)) ⟨(), [], dmNew⟩
    ⟨"u", "r", false, some "tok"⟩ rfl rfl
  exact h

/-- C8: On an initialized local backend with no news key in localStorage,
`getNewsItems` returns exactly the three built-in sample items, whose ids
are `'1'`, `'2'`, `'3'` in that order. -/
theorem C8_sample_news (σ : Type) (cfg : Option GHConfig) (respond : Responder σ)
    (now : Nat) (w : World σ)
    (hi : w.dm.isInitialized = true) (hl : w.dm.useGitHub = false)
    (hk : lsGet w.ls "jjkNews" = none) :
    ( DataManager.getNewsItems cfg respond now w).1 = .ok (createSampleNewsData now) ∧
    newsIds (createSampleNewsData now) = [some "1", some "2", some "3"] := by
  have hp : jparseOpt (lsGet w.ls "jjkNews") = .ok .null := by
    rw [hk]
    exact jparseOpt_none
  rw [dm_getNewsItems_local_falsy σ cfg respond now w .null hi hl hp rfl]
  exact ⟨rfl, rfl⟩

/-- Witness for C8 on a concrete fresh local world. -/
theorem C8_witness :
    ( DataManager.getNewsItems none (fun (s : Unit) (q : HRequest) => (s, resp404))
        1700000000000 ⟨(), [], ⟨none, true, false, some true⟩⟩).1
      = .ok (createSampleNewsData 1700000000000) ∧
    newsIds (createSampleNewsData 1700000000000) = [some "1", some "2", some "3"] :=
  C8_sample_news Unit none (fun s q => (s, resp404)) 1700000000000
    ⟨(), [], ⟨none, true, false, some true⟩⟩ rfl rfl rfl

/-- C10: On the local backend the four document getters never modify any
state (localStorage, server, or instance fields); when the news key is
absent the returned collection is regenerated from the current clock by
`_createSampleNewsData` rather than read from storage, and the regenerated
timestamps genuinely vary with the clock. -/
theorem C10_get_frame (σ : Type) (cfg : Option GHConfig) (respond : Responder σ)
    (now : Nat) (w : World σ)
    (hi : w.dm.isInitialized = true) (hl : w.dm.useGitHub = false) :
    ( DataManager.getNewsItems cfg respond now w).2.1 = w ∧
    ( DataManager.getSiteSettings cfg respond w).2.1 = w ∧
    ( DataManager.getSocialLinks cfg respond w).2.1 = w ∧
    ( DataManager.getAdminSettings cfg respond w).2.1 = w ∧
    (lsGet w.ls "jjkNews" = none →
      ( DataManager.getNewsItems cfg respond now w).1 = .ok (createSampleNewsData now)) ∧
    createSampleNewsData 1700000000000 ≠ createSampleNewsData 1700086400000 := by
  refine ⟨?_, ?_, ?_, ?_, ?_, ?_⟩
  · cases hp : jparseOpt (lsGet w.ls "jjkNews") with
    | ok nv =>
      cases ht : truthy nv with
      | true => rw [dm_getNewsItems_local_parsed σ cfg respond now w nv hi hl hp ht]
      | false => rw [dm_getNewsItems_local_falsy σ cfg respond now w nv hi hl hp ht]
    | error e => rw [dm_getNewsItems_local_malformed σ cfg respond now w e hi hl hp]
  · rw [dm_getSiteSettings_local σ cfg respond w hi hl]
  · cases hp : jparseOpt (lsGet w.ls "jjkSocialLinks") with
    | ok sv =>
      cases ht : truthy sv with
      | true => rw [dm_getSocialLinks_local_parsed σ cfg respond w sv hi hl hp ht]
      | false => rw [dm_getSocialLinks_local_falsy σ cfg respond w sv hi hl hp ht]
    | error e => rw [dm_getSocialLinks_local_malformed σ cfg respond w e hi hl hp]
  · rw [dm_getAdminSettings_local σ cfg respond w hi hl]
  · intro hk
    have hp : jparseOpt (lsGet w.ls "jjkNews") = .ok .null := by
      rw [hk]
      exact jparseOpt_none
    rw [dm_getNewsItems_local_falsy σ cfg respond now w .null hi hl hp rfl]
  · decide

/-- Witness for C10 on a concrete local world. -/
theorem C10_witness :
    ( DataManager.getNewsItems none (fun (s : Unit) (q : HRequest) => (s, resp404)) 5
        ⟨(), [], ⟨none, true, false, some true⟩⟩).2.1
      = (⟨(), [], ⟨none, true, false, some true⟩⟩ : World Unit) ∧
    ( DataManager.getSiteSettings none (fun (s : Unit) (q : HRequest) => (s, resp404))
        ⟨(), [], ⟨none, true, false, some true⟩⟩).2.1
      = (⟨(), [], ⟨none, true, false, some true⟩⟩ : World Unit) ∧
    ( DataManager.getSocialLinks none (fun (s : Unit) (q : HRequest) => (s, resp404))
        ⟨(), [], ⟨none, true, false, some true⟩⟩).2.1
      = (⟨(), [], ⟨none, true, false, some true⟩⟩ : World Unit) ∧
    ( DataManager.getAdminSettings none (fun (s : Unit) (q : HRequest) => (s, resp404))
        ⟨(), [], ⟨none, true, false, some true⟩⟩).2.1
      = (⟨(), [], ⟨none, true, false, some true⟩⟩ : World Unit) ∧
    (lsGet ([] : LocalStorage) "jjkNews" = none →
      ( DataManager.getNewsItems none (fun (s : Unit) (q : HRequest) => (s, resp404)) 5
        ⟨(), [], ⟨none, true, false, some true⟩⟩).1 = .ok (createSampleNewsData 5)) ∧
    createSampleNewsData 1700000000000 ≠ createSampleNewsData 1700086400000 :=
  C10_get_frame Unit none (fun s q => (s, resp404)) 5
    ⟨(), [], ⟨none, true, false, some true⟩⟩ rfl rfl

/-- C1: Whenever the remote configuration is absent, incomplete (falsy
username, repository name or token), or the connectivity probe returns
failure, a fresh `DataManager.initialize` resolves successfully (it never
raises: the result is `Except.ok`), selects the local backend and marks the
instance initialized. -/
theorem C1_initialize_fallback (σ : Type) (respond : Responder σ) (w : World σ)
    (cfg : Option GHConfig) (hfresh : w.dm.initDone = none)
    (hbad : cfg = none ∨
      (∃ c, cfg = some c ∧
        (strT c.username = false ∨ strT c.repoName = false ∨ optT c.token = false)) ∨
      (∃ c, cfg = some c ∧
        ( GitHubAPI.initialize ⟨(c.token).getD "", none, none⟩ respond c.username
            c.repoName w.srv).1
          = .ok (false, ⟨(c.token).getD "", some c.username, some c.repoName⟩))) :
    ( DataManager.initialize cfg respond w).1 = .ok true ∧
    ( DataManager.initialize cfg respond w).2.1.dm.useGitHub = false ∧
    ( DataManager.initialize cfg respond w).2.1.dm.isInitialized = true := by
  rcases hbad with rfl | ⟨c, rfl, hinc⟩ | ⟨c, rfl, hprobe⟩
  · unfold DataManager.initialize
    rw [hfresh]
    simp
  · unfold DataManager.initialize
    rw [hfresh]
    by_cases he : c.enabled = true
    · have hng : ¬ (strT c.username = true ∧ strT c.repoName = true ∧ optT c.token = true) := by
        rcases hinc with h | h | h <;> simp [h]
      simp [he, hng]
    · simp [he]
  · unfold DataManager.initialize
    rw [hfresh]
    by_cases he : c.enabled = true
    · by_cases hg : strT c.username = true ∧ strT c.repoName = true ∧ optT c.token = true
      · rcases hrun : GitHubAPI.initialize ⟨(c.token).getD "", none, none⟩ respond
          c.username c.repoName w.srv with ⟨r, s1, l1⟩
        rw [hrun] at hprobe
        simp only [] at hprobe
        simp [he, hg, hrun, hprobe]
      · simp [he, hg]
    · simp [he]

/-- Witness for C1 with the configuration object entirely absent. -/
theorem C1_witness :
    ( DataManager.initialize none (fun (s : Unit) (q : HRequest) => (s, resp404))
        ⟨(), [], dmNew⟩).1 = .ok true ∧
    ( DataManager.initialize none (fun (s : Unit) (q : HRequest) => (s, resp404))
        ⟨(), [], dmNew⟩).2.1.dm.useGitHub = false ∧
    ( DataManager.initialize none (fun (s : Unit) (q : HRequest) => (s, resp404))
        ⟨(), [], dmNew⟩).2.1.dm.isInitialized = true :=
  C1_initialize_fallback Unit (fun s q => (s, resp404)) ⟨(), [], dmNew⟩ none rfl
    (Or.inl rfl)

/-- C2 counterexample: the claim promises a save/get round trip for every
value of each kind's shape on both backends; but on the local backend
`getSiteSettings` replaces a stored empty string by the default
(`getItem(k) || default`), so saving `siteTitle := ""` reads back
`"NOARZ"`. -/
theorem C2_counterexample :
    ( DataManager.getSiteSettings none (fun (s : Unit) (q : HRequest) => (s, resp404))
        (( DataManager.saveSiteSettings none (fun (s : Unit) (q : HRequest) => (s, resp404))
            (.obj [("siteTitle", .str ""), ("newsHeader", .str "x")])
            ⟨(), [], ⟨none, true, false, some true⟩⟩).2.1)).1
      = .ok (.obj [("siteTitle", .str "NOARZ"), ("newsHeader", .str "x")]) ∧
    ¬ ((JVal.obj [("siteTitle", .str "NOARZ"), ("newsHeader", .str "x")])
        = .obj [("siteTitle", .str ""), ("newsHeader", .str "x")]) := by
  constructor
  · rfl
  · decide

/-- C2 amended: the save/get round trip holds on both backends for values of
the kinds' canonical shapes, under the conditions the code itself imposes:
no numbers (floats are outside the model), a Latin-1 serialization on the
remote backend (`btoa` throws otherwise), a remote store whose pre-existing
file (if any) is decodable, truthiness of the parsed value for the local
news/social kinds (their shapes — a news array, a links object — are always
truthy), and non-empty `siteTitle`/`newsHeader`/`adminCode` strings on the
local backend, where an empty string would be replaced by the default. -/
theorem C2_roundtrip :
    (∀ (w : World SrvState) (cfg : Option GHConfig) (api : GitHubAPI) (v : JVal) (now : Nat),
      w.dm.isInitialized = true → w.dm.useGitHub = true → w.dm.githubApi = some api →
      noNum v = true → latin1 (jstringify v) = true →
      (∀ f, srvLookup w.srv (apiBaseUrl ++ contentsEndpoint api "news.json") = some f →
        ∃ c, atobE f.content64 = .ok c) →
      ( DataManager.saveNewsItems cfg gitHubRespond v w).1 = .ok true ∧
      ( DataManager.getNewsItems cfg gitHubRespond now
        (( DataManager.saveNewsItems cfg gitHubRespond v w).2.1)).1 = .ok v) ∧
    (∀ (w : World SrvState) (cfg : Option GHConfig) (api : GitHubAPI) (v : JVal),
      w.dm.isInitialized = true → w.dm.useGitHub = true → w.dm.githubApi = some api →
      noNum v = true → latin1 (jstringify v) = true →
      (∀ f, srvLookup w.srv (apiBaseUrl ++ contentsEndpoint api "settings.json") = some f →
        ∃ c, atobE f.content64 = .ok c) →
      ( DataManager.saveSiteSettings cfg gitHubRespond v w).1 = .ok true ∧
      ( DataManager.getSiteSettings cfg gitHubRespond
        (( DataManager.saveSiteSettings cfg gitHubRespond v w).2.1)).1 = .ok v) ∧
    (∀ (w : World SrvState) (cfg : Option GHConfig) (api : GitHubAPI) (v : JVal),
      w.dm.isInitialized = true → w.dm.useGitHub = true → w.dm.githubApi = some api →
      noNum v = true → latin1 (jstringify v) = true →
      (∀ f, srvLookup w.srv (apiBaseUrl ++ contentsEndpoint api "social.json") = some f →
        ∃ c, atobE f.content64 = .ok c) →
      ( DataManager.saveSocialLinks cfg gitHubRespond v w).1 = .ok true ∧
      ( DataManager.getSocialLinks cfg gitHubRespond
        (( DataManager.saveSocialLinks cfg gitHubRespond v w).2.1)).1 = .ok v) ∧
    (∀ (w : World SrvState) (cfg : Option GHConfig) (api : GitHubAPI) (v : JVal),
      w.dm.isInitialized = true → w.dm.useGitHub = true → w.dm.githubApi = some api →
      noNum v = true → latin1 (jstringify v) = true →
      (∀ f, srvLookup w.srv (apiBaseUrl ++ contentsEndpoint api "admin.json") = some f →
        ∃ c, atobE f.content64 = .ok c) →
      ( DataManager.saveAdminSettings cfg gitHubRespond v w).1 = .ok true ∧
      ( DataManager.getAdminSettings cfg gitHubRespond
        (( DataManager.saveAdminSettings cfg gitHubRespond v w).2.1)).1 = .ok v) ∧
    (∀ (σ : Type) (cfg : Option GHConfig) (respond : Responder σ) (w : World σ)
        (items : List JVal) (now : Nat),
      w.dm.isInitialized = true → w.dm.useGitHub = false →
      noNum (.arr items) = true →
      ( DataManager.saveNewsItems cfg respond (.arr items) w).1 = .ok true ∧
      ( DataManager.getNewsItems cfg respond now
        (( DataManager.saveNewsItems cfg respond (.arr items) w).2.1)).1
        = .ok (.arr items)) ∧
    (∀ (σ : Type) (cfg : Option GHConfig) (respond : Responder σ) (w : World σ)
        (a b : String),
      w.dm.isInitialized = true → w.dm.useGitHub = false →
      ¬ a = "" → ¬ b = "" →
      ( DataManager.saveSiteSettings cfg respond
          (.obj [("siteTitle", .str a), ("newsHeader", .str b)]) w).1 = .ok true ∧
      ( DataManager.getSiteSettings cfg respond
        (( DataManager.saveSiteSettings cfg respond
            (.obj [("siteTitle", .str a), ("newsHeader", .str b)]) w).2.1)).1
        = .ok (.obj [("siteTitle", .str a), ("newsHeader", .str b)])) ∧
    (∀ (σ : Type) (cfg : Option GHConfig) (respond : Responder σ) (w : World σ)
        (ms : List (String × JVal)),
      w.dm.isInitialized = true → w.dm.useGitHub = false →
      noNum (.obj ms) = true →
      ( DataManager.saveSocialLinks cfg respond (.obj ms) w).1 = .ok true ∧
      ( DataManager.getSocialLinks cfg respond
        (( DataManager.saveSocialLinks cfg respond (.obj ms) w).2.1)).1
        = .ok (.obj ms)) ∧
    (∀ (σ : Type) (cfg : Option GHConfig) (respond : Responder σ) (w : World σ)
        (code : String),
      w.dm.isInitialized = true → w.dm.useGitHub = false →
      ¬ code = "" →
      ( DataManager.saveAdminSettings cfg respond
          (.obj [("adminCode", .str code)]) w).1 = .ok true ∧
      ( DataManager.getAdminSettings cfg respond
        (( DataManager.saveAdminSettings cfg respond
            (.obj [("adminCode", .str code)]) w).2.1)).1
        = .ok (.obj [("adminCode", .str code)])) := by
  refine ⟨?_, ?_, ?_, ?_, ?_, ?_, ?_, ?_⟩
  · intro w cfg api v now hi hg ha hn hlat hwf
    have hs := dm_saveNewsItems_gh SrvState cfg gitHubRespond v w api hi hg ha
    have hrt := remote_roundtrip api w.srv "news.json" "Update news items" (.arr []) v hn hlat hwf
    constructor
    · rw [hs, liftGh_fst]
      exact hrt.1
    · rw [hs, liftGh_state]
      rw [dm_getNewsItems_gh SrvState cfg gitHubRespond now
        { w with srv := ( GitHubAPI.saveNewsItems api gitHubRespond v w.srv).2.1 } api hi hg ha]
      rw [liftGh_fst]
      exact hrt.2
  · intro w cfg api v hi hg ha hn hlat hwf
    have hs := dm_saveSiteSettings_gh SrvState cfg gitHubRespond v w api hi hg ha
    have hrt := remote_roundtrip api w.srv "settings.json" "Update site settings" (.obj []) v hn hlat hwf
    constructor
    · rw [hs, liftGh_fst]
      exact hrt.1
    · rw [hs, liftGh_state]
      rw [dm_getSiteSettings_gh SrvState cfg gitHubRespond
        { w with srv := ( GitHubAPI.saveSiteSettings api gitHubRespond v w.srv).2.1 } api hi hg ha]
      rw [liftGh_fst]
      exact hrt.2
  · intro w cfg api v hi hg ha hn hlat hwf
    have hs := dm_saveSocialLinks_gh SrvState cfg gitHubRespond v w api hi hg ha
    have hrt := remote_roundtrip api w.srv "social.json" "Update social media links" socialDefault v hn hlat hwf
    constructor
    · rw [hs, liftGh_fst]
      exact hrt.1
    · rw [hs, liftGh_state]
      rw [dm_getSocialLinks_gh SrvState cfg gitHubRespond
        { w with srv := ( GitHubAPI.saveSocialLinks api gitHubRespond v w.srv).2.1 } api hi hg ha]
      rw [liftGh_fst]
      exact hrt.2
  · intro w cfg api v hi hg ha hn hlat hwf
    have hs := dm_saveAdminSettings_gh SrvState cfg gitHubRespond v w api hi hg ha
    have hrt := remote_roundtrip api w.srv "admin.json" "Update admin settings" adminDefault v hn hlat hwf
    constructor
    · rw [hs, liftGh_fst]
      exact hrt.1
    · rw [hs, liftGh_state]
      rw [dm_getAdminSettings_gh SrvState cfg gitHubRespond
        { w with srv := ( GitHubAPI.saveAdminSettings api gitHubRespond v w.srv).2.1 } api hi hg ha]
      rw [liftGh_fst]
      exact hrt.2
  · intro σ cfg respond w items now hi hl hn
    have hs := dm_saveNewsItems_local σ cfg respond (.arr items) w hi hl
    constructor
    · rw [hs]
    · rw [hs]
      have hp : jparseOpt (lsGet (lsSet w.ls "jjkNews" (jstringify (.arr items)))
          "jjkNews") = .ok (.arr items) := by
        rw [lsGet_set_self, jparseOpt_some, jparse_jstringify _ hn]
      rw [dm_getNewsItems_local_parsed σ cfg respond now
        { w with ls := lsSet w.ls "jjkNews" (jstringify (.arr items)) }
        (.arr items) hi hl hp rfl]
  · intro σ cfg respond w a b hi hl ha hb
    have hs := dm_saveSiteSettings_local σ cfg respond
      (.obj [("siteTitle", .str a), ("newsHeader", .str b)]) w hi hl
    constructor
    · rw [hs]
    · rw [hs]
      rw [dm_getSiteSettings_local σ cfg respond
        { w with
          ls := lsSet (lsSet w.ls "jjkSiteTitle"
            (match jGet (.obj [("siteTitle", .str a), ("newsHeader", .str b)]) "siteTitle" with
             | some x => jsToStr x
             | none => "undefined")) "jjkNewsHeader"
            (match jGet (.obj [("siteTitle", .str a), ("newsHeader", .str b)]) "newsHeader" with
             | some x => jsToStr x
             | none => "undefined") } hi hl]
      simp only [jGet, List.find?, jsToStr]
      simp [lsGet_set_self, lsGet_set_ne, strOrD, ha, hb]
  · intro σ cfg respond w ms hi hl hn
    have hs := dm_saveSocialLinks_local σ cfg respond (.obj ms) w hi hl
    constructor
    · rw [hs]
    · rw [hs]
      have hp : jparseOpt (lsGet (lsSet w.ls "jjkSocialLinks" (jstringify (.obj ms)))
          "jjkSocialLinks") = .ok (.obj ms) := by
        rw [lsGet_set_self, jparseOpt_some, jparse_jstringify _ hn]
      rw [dm_getSocialLinks_local_parsed σ cfg respond
        { w with ls := lsSet w.ls "jjkSocialLinks" (jstringify (.obj ms)) }
        (.obj ms) hi hl hp rfl]
  · intro σ cfg respond w code hi hl hc
    have hs := dm_saveAdminSettings_local σ cfg respond
      (.obj [("adminCode", .str code)]) w hi hl
    constructor
    · rw [hs]
    · rw [hs]
      rw [dm_getAdminSettings_local σ cfg respond
        { w with
          ls := lsSet w.ls "jjkAdminCode"
            (match jGet (.obj [("adminCode", .str code)]) "adminCode" with
             | some x => jsToStr x
             | none => "undefined") } hi hl]
      simp only [jGet, List.find?, jsToStr]
      simp [lsGet_set_self, strOrD, hc]

/-- Witness for the amended C2: the round trip evaluated for each kind on a
concrete empty remote store and on a concrete local world. -/
theorem C2_witness :
    (( DataManager.saveNewsItems none gitHubRespond (.arr []) (⟨⟨[], 0⟩, [], ⟨some ⟨"t", some "u", some "r"⟩, true, true, some true⟩⟩ : World SrvState)).1 = .ok true ∧
     ( DataManager.getNewsItems none gitHubRespond 7
        (( DataManager.saveNewsItems none gitHubRespond (.arr []) (⟨⟨[], 0⟩, [], ⟨some ⟨"t", some "u", some "r"⟩, true, true, some true⟩⟩ : World SrvState)).2.1)).1 = .ok (.arr [])) ∧
    (( DataManager.saveSiteSettings none gitHubRespond (.obj [("siteTitle", .str "S")]) (⟨⟨[], 0⟩, [], ⟨some ⟨"t", some "u", some "r"⟩, true, true, some true⟩⟩ : World SrvState)).1 = .ok true ∧
     ( DataManager.getSiteSettings none gitHubRespond
        (( DataManager.saveSiteSettings none gitHubRespond (.obj [("siteTitle", .str "S")]) (⟨⟨[], 0⟩, [], ⟨some ⟨"t", some "u", some "r"⟩, true, true, some true⟩⟩ : World SrvState)).2.1)).1 = .ok (.obj [("siteTitle", .str "S")])) ∧
    (( DataManager.saveSocialLinks none gitHubRespond (.obj []) (⟨⟨[], 0⟩, [], ⟨some ⟨"t", some "u", some "r"⟩, true, true, some true⟩⟩ : World SrvState)).1 = .ok true ∧
     ( DataManager.getSocialLinks none gitHubRespond
        (( DataManager.saveSocialLinks none gitHubRespond (.obj []) (⟨⟨[], 0⟩, [], ⟨some ⟨"t", some "u", some "r"⟩, true, true, some true⟩⟩ : World SrvState)).2.1)).1 = .ok (.obj [])) ∧
    (( DataManager.saveAdminSettings none gitHubRespond (.obj [("adminCode", .str "1")]) (⟨⟨[], 0⟩, [], ⟨some ⟨"t", some "u", some "r"⟩, true, true, some true⟩⟩ : World SrvState)).1 = .ok true ∧
     ( DataManager.getAdminSettings none gitHubRespond
        (( DataManager.saveAdminSettings none gitHubRespond (.obj [("adminCode", .str "1")]) (⟨⟨[], 0⟩, [], ⟨some ⟨"t", some "u", some "r"⟩, true, true, some true⟩⟩ : World SrvState)).2.1)).1 = .ok (.obj [("adminCode", .str "1")])) ∧
    (( DataManager.saveNewsItems none (fun (s : Unit) (q : HRequest) => (s, resp404)) (.arr []) (⟨(), [], ⟨none, true, false, some true⟩⟩ : World Unit)).1 = .ok true ∧
     ( DataManager.getNewsItems none (fun (s : Unit) (q : HRequest) => (s, resp404)) 7
        (( DataManager.saveNewsItems none (fun (s : Unit) (q : HRequest) => (s, resp404)) (.arr []) (⟨(), [], ⟨none, true, false, some true⟩⟩ : World Unit)).2.1)).1 = .ok (.arr [])) ∧
    (( DataManager.saveSiteSettings none (fun (s : Unit) (q : HRequest) => (s, resp404)) (.obj [("siteTitle", .str "S"), ("newsHeader", .str "H")]) (⟨(), [], ⟨none, true, false, some true⟩⟩ : World Unit)).1 = .ok true ∧
     ( DataManager.getSiteSettings none (fun (s : Unit) (q : HRequest) => (s, resp404))
        (( DataManager.saveSiteSettings none (fun (s : Unit) (q : HRequest) => (s, resp404)) (.obj [("siteTitle", .str "S"), ("newsHeader", .str "H")]) (⟨(), [], ⟨none, true, false, some true⟩⟩ : World Unit)).2.1)).1 = .ok (.obj [("siteTitle", .str "S"), ("newsHeader", .str "H")])) ∧
    (( DataManager.saveSocialLinks none (fun (s : Unit) (q : HRequest) => (s, resp404)) (.obj []) (⟨(), [], ⟨none, true, false, some true⟩⟩ : World Unit)).1 = .ok true ∧
     ( DataManager.getSocialLinks none (fun (s : Unit) (q : HRequest) => (s, resp404))
        (( DataManager.saveSocialLinks none (fun (s : Unit) (q : HRequest) => (s, resp404)) (.obj []) (⟨(), [], ⟨none, true, false, some true⟩⟩ : World Unit)).2.1)).1 = .ok (.obj [])) ∧
    (( DataManager.saveAdminSettings none (fun (s : Unit) (q : HRequest) => (s, resp404)) (.obj [("adminCode", .str "1")]) (⟨(), [], ⟨none, true, false, some true⟩⟩ : World Unit)).1 = .ok true ∧
     ( DataManager.getAdminSettings none (fun (s : Unit) (q : HRequest) => (s, resp404))
        (( DataManager.saveAdminSettings none (fun (s : Unit) (q : HRequest) => (s, resp404)) (.obj [("adminCode", .str "1")]) (⟨(), [], ⟨none, true, false, some true⟩⟩ : World Unit)).2.1)).1 = .ok (.obj [("adminCode", .str "1")])) :=
  ⟨( C2_roundtrip.1 (⟨⟨[], 0⟩, [], ⟨some ⟨"t", some "u", some "r"⟩, true, true, some true⟩⟩ : World SrvState) none ⟨"t", some "u", some "r"⟩ (.arr []) 7 rfl rfl rfl rfl
      (by decide) (by intro f hf; simp [srvLookup] at hf)),
   ( C2_roundtrip.2.1 (⟨⟨[], 0⟩, [], ⟨some ⟨"t", some "u", some "r"⟩, true, true, some true⟩⟩ : World SrvState) none ⟨"t", some "u", some "r"⟩ (.obj [("siteTitle", .str "S")])
      rfl rfl rfl rfl (by decide) (by intro f hf; simp [srvLookup] at hf)),
   ( C2_roundtrip.2.2.1 (⟨⟨[], 0⟩, [], ⟨some ⟨"t", some "u", some "r"⟩, true, true, some true⟩⟩ : World SrvState) none ⟨"t", some "u", some "r"⟩ (.obj [])
      rfl rfl rfl rfl (by decide) (by intro f hf; simp [srvLookup] at hf)),
   ( C2_roundtrip.2.2.2.1 (⟨⟨[], 0⟩, [], ⟨some ⟨"t", some "u", some "r"⟩, true, true, some true⟩⟩ : World SrvState) none ⟨"t", some "u", some "r"⟩ (.obj [("adminCode", .str "1")])
      rfl rfl rfl rfl (by decide) (by intro f hf; simp [srvLookup] at hf)),
   ( C2_roundtrip.2.2.2.2.1 Unit none (fun (s : Unit) (q : HRequest) => (s, resp404)) (⟨(), [], ⟨none, true, false, some true⟩⟩ : World Unit) [] 7 rfl rfl rfl),
   ( C2_roundtrip.2.2.2.2.2.1 Unit none (fun (s : Unit) (q : HRequest) => (s, resp404)) (⟨(), [], ⟨none, true, false, some true⟩⟩ : World Unit) "S" "H" rfl rfl (by decide) (by decide)),
   ( C2_roundtrip.2.2.2.2.2.2.1 Unit none (fun (s : Unit) (q : HRequest) => (s, resp404)) (⟨(), [], ⟨none, true, false, some true⟩⟩ : World Unit) [] rfl rfl rfl),
   ( C2_roundtrip.2.2.2.2.2.2.2 Unit none (fun (s : Unit) (q : HRequest) => (s, resp404)) (⟨(), [], ⟨none, true, false, some true⟩⟩ : World Unit) "1" rfl rfl (by decide))⟩

/-- C3 counterexample: the claim says a malformed persisted string never
makes a document-level get raise, on both backends; but the local
`getNewsItems` runs `JSON.parse` on the stored string with no catch, so a
malformed `jjkNews` value rejects the call with the parse error. -/
theorem C3_counterexample :
    ( DataManager.getNewsItems none (fun (s : Unit) (q : HRequest) => (s, resp404)) 0
        (⟨(), [("jjkNews", "\x7b")], ⟨none, true, false, some true⟩⟩ : World Unit)).1
      = .error jsonSyntaxErr := by
  rfl

/-- C3 amended: on the remote backend every document-level get substitutes
the kind's (remote) default when the stored content is malformed JSON; on
the local backend `getSiteSettings` and `getAdminSettings` never parse JSON
and never raise, but `getNewsItems` and `getSocialLinks` propagate the
`JSON.parse` error for a malformed stored string. -/
theorem C3_decode_failure :
    (∀ (api : GitHubAPI) (sv : SrvState) (f : SrvFile) (content : String) (e : Err),
      srvLookup sv (apiBaseUrl ++ contentsEndpoint api "news.json") = some f →
      atobE f.content64 = .ok content → jparse content = .error e →
      GitHubAPI.getNewsItems api gitHubRespond sv =
        (.ok (.arr []), sv,
          [⟨apiBaseUrl ++ contentsEndpoint api "news.json", .GET, none⟩])) ∧
    (∀ (api : GitHubAPI) (sv : SrvState) (f : SrvFile) (content : String) (e : Err),
      srvLookup sv (apiBaseUrl ++ contentsEndpoint api "settings.json") = some f →
      atobE f.content64 = .ok content → jparse content = .error e →
      GitHubAPI.getSiteSettings api gitHubRespond sv =
        (.ok (.obj []), sv,
          [⟨apiBaseUrl ++ contentsEndpoint api "settings.json", .GET, none⟩])) ∧
    (∀ (api : GitHubAPI) (sv : SrvState) (f : SrvFile) (content : String) (e : Err),
      srvLookup sv (apiBaseUrl ++ contentsEndpoint api "social.json") = some f →
      atobE f.content64 = .ok content → jparse content = .error e →
      GitHubAPI.getSocialLinks api gitHubRespond sv =
        (.ok socialDefault, sv,
          [⟨apiBaseUrl ++ contentsEndpoint api "social.json", .GET, none⟩])) ∧
    (∀ (api : GitHubAPI) (sv : SrvState) (f : SrvFile) (content : String) (e : Err),
      srvLookup sv (apiBaseUrl ++ contentsEndpoint api "admin.json") = some f →
      atobE f.content64 = .ok content → jparse content = .error e →
      GitHubAPI.getAdminSettings api gitHubRespond sv =
        (.ok adminDefault, sv,
          [⟨apiBaseUrl ++ contentsEndpoint api "admin.json", .GET, none⟩])) ∧
    (∀ (σ : Type) (cfg : Option GHConfig) (respond : Responder σ) (now : Nat)
        (w : World σ) (e : Err),
      w.dm.isInitialized = true → w.dm.useGitHub = false →
      (jparseOpt (lsGet w.ls "jjkNews") = .error e →
        DataManager.getNewsItems cfg respond now w = (.error e, w, [])) ∧
      (jparseOpt (lsGet w.ls "jjkSocialLinks") = .error e →
        DataManager.getSocialLinks cfg respond w = (.error e, w, [])) ∧
      DataManager.getSiteSettings cfg respond w =
        (.ok (.obj [("siteTitle", .str (strOrD (lsGet w.ls "jjkSiteTitle") "NOARZ")),
          ("newsHeader", .str (strOrD (lsGet w.ls "jjkNewsHeader") "📰MESSAGE📣"))]),
          w, []) ∧
      DataManager.getAdminSettings cfg respond w =
        (.ok (.obj [("adminCode",
            .str (strOrD (lsGet w.ls "jjkAdminCode") "0988131688"))]), w, [])) := by
  refine ⟨?_, ?_, ?_, ?_, ?_⟩
  · intro api sv f content e h1 h2 h3
    exact getDoc_srv_malformed api sv "news.json" (.arr []) f content e h1 h2 h3
  · intro api sv f content e h1 h2 h3
    exact getDoc_srv_malformed api sv "settings.json" (.obj []) f content e h1 h2 h3
  · intro api sv f content e h1 h2 h3
    exact getDoc_srv_malformed api sv "social.json" socialDefault f content e h1 h2 h3
  · intro api sv f content e h1 h2 h3
    exact getDoc_srv_malformed api sv "admin.json" adminDefault f content e h1 h2 h3
  · intro σ cfg respond now w e hi hl
    refine ⟨?_, ?_, ?_, ?_⟩
    · intro hp
      exact dm_getNewsItems_local_malformed σ cfg respond now w e hi hl hp
    · intro hp
      exact dm_getSocialLinks_local_malformed σ cfg respond w e hi hl hp
    · exact dm_getSiteSettings_local σ cfg respond w hi hl
    · exact dm_getAdminSettings_local σ cfg respond w hi hl

/-- Witness for the amended C3: a concrete remote store holding malformed
JSON (base64 of the single character `\x7b`) yields the default, and a
concrete local world with the same malformed string raises the parse
error from `getNewsItems` while the settings getters still answer. -/
theorem C3_witness :
    GitHubAPI.getNewsItems ⟨"t", some "u", some "r"⟩ gitHubRespond
        ⟨[(apiBaseUrl ++ contentsEndpoint ⟨"t", some "u", some "r"⟩ "news.json",
          ⟨"ew==", 0⟩)], 1⟩ =
      (.ok (.arr []),
        ⟨[(apiBaseUrl ++ contentsEndpoint ⟨"t", some "u", some "r"⟩ "news.json",
          ⟨"ew==", 0⟩)], 1⟩,
        [⟨apiBaseUrl ++ contentsEndpoint ⟨"t", some "u", some "r"⟩ "news.json",
          .GET, none⟩]) ∧
    DataManager.getNewsItems none (fun (s : Unit) (q : HRequest) => (s, resp404)) 0 (⟨(), [("jjkNews", "\x7b")], ⟨none, true, false, some true⟩⟩ : World Unit) =
      (.error jsonSyntaxErr, (⟨(), [("jjkNews", "\x7b")], ⟨none, true, false, some true⟩⟩ : World Unit), []) ∧
    DataManager.getSiteSettings none (fun (s : Unit) (q : HRequest) => (s, resp404)) (⟨(), [("jjkNews", "\x7b")], ⟨none, true, false, some true⟩⟩ : World Unit) =
      (.ok (.obj [("siteTitle", .str (strOrD (lsGet ([("jjkNews", "\x7b")] : LocalStorage)
          "jjkSiteTitle") "NOARZ")),
        ("newsHeader", .str (strOrD (lsGet ([("jjkNews", "\x7b")] : LocalStorage)
          "jjkNewsHeader") "📰MESSAGE📣"))]),
        (⟨(), [("jjkNews", "\x7b")], ⟨none, true, false, some true⟩⟩ : World Unit), []) :=
  ⟨ C3_decode_failure.1 ⟨"t", some "u", some "r"⟩
      ⟨[(apiBaseUrl ++ contentsEndpoint ⟨"t", some "u", some "r"⟩ "news.json",
        ⟨"ew==", 0⟩)], 1⟩
      ⟨"ew==", 0⟩ "\x7b" jsonSyntaxErr (by simp [srvLookup, List.find?])
      (by decide) (by decide),
   ( C3_decode_failure.2.2.2.2 Unit none (fun (s : Unit) (q : HRequest) => (s, resp404)) 0 (⟨(), [("jjkNews", "\x7b")], ⟨none, true, false, some true⟩⟩ : World Unit)
      jsonSyntaxErr rfl rfl).1 (by decide),
   ( C3_decode_failure.2.2.2.2 Unit none (fun (s : Unit) (q : HRequest) => (s, resp404)) 0 (⟨(), [("jjkNews", "\x7b")], ⟨none, true, false, some true⟩⟩ : World Unit)
      jsonSyntaxErr rfl rfl).2.2.1⟩

end NOARZ
